import Mathlib

/-!
Verification development for the gltf-go repository: a Go program that
converts an in-memory triangle-mesh model into a glTF 2.0 asset
(binary `.glb` container or embedded `.gltf` text).

Modelling conventions (shallow embedding of the Go source):
  * `float32` / `float64` values are modelled as exact rationals (`ℚ`);
    all arithmetic the claims speak about (affine remapping, min/max
    folds, divisions by powers of two) is exact on the values the
    pipeline handles.
  * `int32` values (triangle indices) are modelled as `ℤ` with explicit
    two's-complement wrapping (`toInt32`) at every point where the Go
    code performs 32-bit arithmetic or conversion.
  * The packed byte buffer is a list of 4-byte scalar cells
    (`BufEntry`): every write the program performs (`binary.Write` of a
    `float32`, `int32` or `uint32`) appends exactly 4 bytes, so byte
    offsets and lengths are `4 *` the cell count.  The IEEE-754 bit
    pattern inside a cell is not modelled (no claim depends on it).
  * The JSON encoder and the PNG/base64 encoders are external services
    (spec §1, §6).  The binary serializer therefore takes the marshalled
    JSON text and the packed buffer bytes as plain byte lists, and the
    texture atlas is modelled as the 32×32 RGBA raster the program
    fills before handing it to the external PNG encoder.
  * Go global mode flags (`vertexColors`) are threaded as explicit
    boolean parameters.
-/

namespace GltfGo

/-- Three `float32` components, as used by the `[3]float32` color fields of
`Material`. -/
structure Float3 where
  f0 : ℚ
  f1 : ℚ
  f2 : ℚ
deriving DecidableEq, Inhabited, Repr

/-- Vector2 of the source: a UV texture coordinate. -/
structure Vector2 where
  u : ℚ
  v : ℚ
deriving DecidableEq, Inhabited, Repr

/-- Vector3 of the source: a position or normal. -/
structure Vector3 where
  x : ℚ
  y : ℚ
  z : ℚ
deriving DecidableEq, Inhabited, Repr

/-- Vector4 of the source: an RGBA color. -/
structure Vector4 where
  r : ℚ
  g : ℚ
  b : ℚ
  a : ℚ
deriving DecidableEq, Inhabited, Repr

/-- Vertex of the source. -/
structure Vertex where
  color : Vector4
  position : Vector3
  normal : Vector3
  uv : Vector2
deriving DecidableEq, Inhabited, Repr

/-- Triangle of the source: `TriangleIndices [3]int32`, modelled as three
integers carrying int32 values. -/
structure Triangle where
  i0 : ℤ
  i1 : ℤ
  i2 : ℤ
deriving DecidableEq, Inhabited, Repr

/-- Material of the source (the input shading material). -/
structure Material where
  ambientColor : Float3
  diffuseColor : Float3
  specularColor : Float3
  specularPower : ℚ
  emissiveColor : Float3
  opacity : ℚ
deriving DecidableEq, Inhabited, Repr

/-- Geometry of the source: one sub-mesh. -/
structure Geometry where
  vertices : List Vertex
  faces : List Triangle
  material : Material
deriving DecidableEq, Inhabited, Repr

/-- Model of the source: a wrapper around a list of sub-meshes. -/
structure Model where
  meshes : List Geometry
deriving DecidableEq, Inhabited, Repr

/-- Accessor of the glTF schema (part_000).  `componentType` is the glTF
enum value (5125 or 5126), `type` the shape string. -/
structure Accessor where
  bufferView : ℕ
  byteOffset : ℕ
  componentType : ℕ
  count : ℕ
  type : String
  max : List ℚ
  min : List ℚ
deriving DecidableEq, Inhabited, Repr

/-- BufferView of the glTF schema.  `byteStride = 0` models the Go zero
value, which the `omitempty` JSON tag leaves out of the output. -/
structure BufferView where
  buffer : ℕ
  byteOffset : ℕ
  byteLength : ℕ
  byteStride : ℕ
  target : ℕ
deriving DecidableEq, Inhabited, Repr

/-- MaterialPbrMetallicRoughness of the glTF schema.  `baseColorFactor`
carries the `json:"-"` tag in the source and is never serialized;
`baseColorTexture` models the `map[string]int` with key `index`. -/
structure MaterialPbrMetallicRoughness where
  baseColorFactor : List ℚ
  baseColorTexture : Option ℕ
  metallicFactor : ℚ
  roughnessFactor : ℚ
deriving DecidableEq, Inhabited, Repr

/-- GltfMaterial of the glTF schema. -/
structure GltfMaterial where
  doubleSided : Bool
  alphaMode : Option String
  pbrMetallicRoughness : MaterialPbrMetallicRoughness
deriving DecidableEq, Inhabited, Repr

/-- MeshPrimitive of the glTF schema.  Go uses `map[string]int` for the
attributes; the model keeps the insertion-ordered association list. -/
structure MeshPrimitive where
  attributes : List (String × ℕ)
  indices : ℕ
  material : ℕ
deriving DecidableEq, Inhabited, Repr

/-- Mesh of the glTF schema (name mutation by the caller is irrelevant to
the claims and omitted). -/
structure Mesh where
  primitives : List MeshPrimitive
deriving DecidableEq, Inhabited, Repr

/-- Node of the glTF schema (only the mesh reference is ever set). -/
structure Node where
  mesh : ℕ
deriving DecidableEq, Inhabited, Repr

/-- Scene of the glTF schema. -/
structure Scene where
  nodes : List ℕ
deriving DecidableEq, Inhabited, Repr

/-- One 4-byte scalar cell of the packed binary buffer: every
`binary.Write` the program performs writes exactly one `float32`,
`int32` or `uint32`, i.e. 4 little-endian bytes. -/
inductive BufEntry where
  | f32 (val : ℚ)
  | i32 (val : ℤ)
deriving DecidableEq, Inhabited, Repr

/-- Byte length of the packed buffer: 4 bytes per scalar cell. -/
def bufLen (buf : List BufEntry) : ℕ := 4 * buf.length

/-- GltfBuffer of the glTF schema. -/
structure GltfBuffer where
  byteLength : ℕ
  bytes : List BufEntry
deriving DecidableEq, Inhabited, Repr

/-- GlTF document of the glTF schema, restricted to the fields this
pipeline writes.  `textures` holds the image source index of each
texture; the image data URI itself is produced by the external
PNG/base64 encoders and not modelled. -/
structure GlTF where
  accessors : List Accessor
  buffers : List GltfBuffer
  bufferViews : List BufferView
  materials : List GltfMaterial
  meshes : List Mesh
  nodes : List Node
  scene : ℕ
  scenes : List Scene
  textures : List ℕ
deriving DecidableEq, Inhabited, Repr

/-- Little-endian 4-byte encoding of a 32-bit value (the low 32 bits of
`n`, exactly what Go emits for a `uint32`). -/
def le32 (n : ℕ) : List ℕ := [n % 256, n / 256 % 256, n / 65536 % 256, n / 16777216 % 256]

/-- Padding needed to reach the next multiple of 4:
Go's `(4 - (size & 3)) & 3`. -/
def pad4 (n : ℕ) : ℕ := (4 - n % 4) % 4

/-- SerializeBinaryGlTF (part_001 lines 127-200).  The marshalled JSON
text (`outJSON`, produced by the external JSON encoder) and the packed
buffer bytes (`gltfDoc.Buffers[0].Bytes`) are the two byte streams the
function lays out.  Sizes are computed in `ℕ`; every place Go stores a
size in a `uint32` field of the file, `le32` keeps only the low 32 bits,
matching the Go truncation. -/
def SerializeBinaryGlTF (outJSON : List ℕ) (bufferBytes : List ℕ) : List ℕ :=
  let outJSONPaddingNeeded := pad4 outJSON.length
  let outJSONSize := outJSON.length + outJSONPaddingNeeded
  let outBufNullsNeeded := pad4 bufferBytes.length
  let outBufSize := bufferBytes.length + outBufNullsNeeded
  let glbSize := 4 + 4 + 4 + 4 + 4 + outJSONSize + 4 + 4 + outBufSize
  [103, 108, 84, 70] ++ le32 2 ++ le32 glbSize ++
    le32 outJSONSize ++ [74, 83, 79, 78] ++ outJSON ++ List.replicate outJSONPaddingNeeded 32 ++
    le32 outBufSize ++ [66, 73, 78, 0] ++ bufferBytes ++ List.replicate outBufNullsNeeded 0

/-- addTriangleArrayToBuffer (part_001 lines 219-238): appends the three
int32 indices of every triangle and folds the running min (seed 100)
and max (seed 0) over the flattened index stream.  The Go loop performs
the three appends and the six min/max updates in one pass; the appends
and the two folds are independent and written separately here. -/
def addTriangleArrayToBuffer (outBuf : List BufEntry) (indices : List Triangle) :
    List BufEntry × ℤ × ℤ :=
  (outBuf ++ indices.flatMap (fun t => [BufEntry.i32 t.i0, BufEntry.i32 t.i1, BufEntry.i32 t.i2]),
   (indices.flatMap (fun t => [t.i0, t.i1, t.i2])).foldl min 100,
   (indices.flatMap (fun t => [t.i0, t.i1, t.i2])).foldl max 0)

/-- addVector2ArrayToBuffer (part_001 lines 241-263): appends the two
float32 components of every element and folds componentwise min (seed
100) and max (seed -100). -/
def addVector2ArrayToBuffer (outBuf : List BufEntry) (data : List Vector2) :
    List BufEntry × Vector2 × Vector2 :=
  (outBuf ++ data.flatMap (fun w => [BufEntry.f32 w.u, BufEntry.f32 w.v]),
   ⟨(data.map Vector2.u).foldl min 100, (data.map Vector2.v).foldl min 100⟩,
   ⟨(data.map Vector2.u).foldl max (-100), (data.map Vector2.v).foldl max (-100)⟩)

/-- addVector3ArrayToBuffer (part_001 lines 269-296). -/
def addVector3ArrayToBuffer (outBuf : List BufEntry) (data : List Vector3) :
    List BufEntry × Vector3 × Vector3 :=
  (outBuf ++ data.flatMap (fun w => [BufEntry.f32 w.x, BufEntry.f32 w.y, BufEntry.f32 w.z]),
   ⟨(data.map Vector3.x).foldl min 100, (data.map Vector3.y).foldl min 100,
    (data.map Vector3.z).foldl min 100⟩,
   ⟨(data.map Vector3.x).foldl max (-100), (data.map Vector3.y).foldl max (-100),
    (data.map Vector3.z).foldl max (-100)⟩)

/-- addVector4ArrayToBuffer (part_001 lines 298-330). -/
def addVector4ArrayToBuffer (outBuf : List BufEntry) (data : List Vector4) :
    List BufEntry × Vector4 × Vector4 :=
  (outBuf ++ data.flatMap (fun w => [BufEntry.f32 w.r, BufEntry.f32 w.g, BufEntry.f32 w.b,
     BufEntry.f32 w.a]),
   ⟨(data.map Vector4.r).foldl min 100, (data.map Vector4.g).foldl min 100,
    (data.map Vector4.b).foldl min 100, (data.map Vector4.a).foldl min 100⟩,
   ⟨(data.map Vector4.r).foldl max (-100), (data.map Vector4.g).foldl max (-100),
    (data.map Vector4.b).foldl max (-100), (data.map Vector4.a).foldl max (-100)⟩)

/-- The three output collections the packer grows: the byte buffer, the
buffer-view list and the accessor list (passed by pointer in Go). -/
structure PackState where
  buf : List BufEntry
  views : List BufferView
  accessors : List Accessor
deriving DecidableEq, Inhabited, Repr

/-- getAccessorIndexFromVector2 (part_001 lines 332-360). -/
def getAccessorIndexFromVector2 (s : PackState) (vectors : List Vector2) : PackState × ℕ :=
  let byteOffset := bufLen s.buf
  let packed := addVector2ArrayToBuffer s.buf vectors
  let byteLength := bufLen packed.1 - byteOffset
  let verticesBufferView : BufferView := ⟨0, byteOffset, byteLength, 8, 34962⟩
  let views2 := s.views ++ [verticesBufferView]
  let verticesAccessor : Accessor :=
    ⟨views2.length - 1, 0, 5126, vectors.length, "VEC2",
     [packed.2.2.u, packed.2.2.v], [packed.2.1.u, packed.2.1.v]⟩
  let accessors2 := s.accessors ++ [verticesAccessor]
  (⟨packed.1, views2, accessors2⟩, accessors2.length - 1)

/-- getAccessorIndexFromVector3 (part_001 lines 364-392). -/
def getAccessorIndexFromVector3 (s : PackState) (vectors : List Vector3) : PackState × ℕ :=
  let byteOffset := bufLen s.buf
  let packed := addVector3ArrayToBuffer s.buf vectors
  let byteLength := bufLen packed.1 - byteOffset
  let verticesBufferView : BufferView := ⟨0, byteOffset, byteLength, 12, 34962⟩
  let views2 := s.views ++ [verticesBufferView]
  let verticesAccessor : Accessor :=
    ⟨views2.length - 1, 0, 5126, vectors.length, "VEC3",
     [packed.2.2.x, packed.2.2.y, packed.2.2.z], [packed.2.1.x, packed.2.1.y, packed.2.1.z]⟩
  let accessors2 := s.accessors ++ [verticesAccessor]
  (⟨packed.1, views2, accessors2⟩, accessors2.length - 1)

/-- getAccessorIndexFromVector4 (part_001 lines 394-422). -/
def getAccessorIndexFromVector4 (s : PackState) (vectors : List Vector4) : PackState × ℕ :=
  let byteOffset := bufLen s.buf
  let packed := addVector4ArrayToBuffer s.buf vectors
  let byteLength := bufLen packed.1 - byteOffset
  let verticesBufferView : BufferView := ⟨0, byteOffset, byteLength, 16, 34962⟩
  let views2 := s.views ++ [verticesBufferView]
  let verticesAccessor : Accessor :=
    ⟨views2.length - 1, 0, 5126, vectors.length, "VEC4",
     [packed.2.2.r, packed.2.2.g, packed.2.2.b, packed.2.2.a],
     [packed.2.1.r, packed.2.1.g, packed.2.1.b, packed.2.1.a]⟩
  let accessors2 := s.accessors ++ [verticesAccessor]
  (⟨packed.1, views2, accessors2⟩, accessors2.length - 1)

/-- getAccessorIndexFromIndices (part_001 lines 426-453).  The index
buffer view carries no byte stride (Go zero value) and target 34963; the
accessor count is `3 *` the triangle count and the min/max are the
folded index extrema converted to float (exact in the rational model). -/
def getAccessorIndexFromIndices (s : PackState) (indices : List Triangle) : PackState × ℕ :=
  let byteOffset := bufLen s.buf
  let packed := addTriangleArrayToBuffer s.buf indices
  let byteLength := bufLen packed.1 - byteOffset
  let indicesBufferView : BufferView := ⟨0, byteOffset, byteLength, 0, 34963⟩
  let views2 := s.views ++ [indicesBufferView]
  let indicesAccessor : Accessor :=
    ⟨views2.length - 1, 0, 5125, indices.length * 3, "SCALAR",
     [(packed.2.2 : ℚ)], [(packed.2.1 : ℚ)]⟩
  let accessors2 := s.accessors ++ [indicesAccessor]
  (⟨packed.1, views2, accessors2⟩, accessors2.length - 1)

/-- areMaterialsEqual (part_001 lines 474-484): exact equality of the
four base-color-factor components and the metallic and roughness
factors; every other field is ignored.  (Go indexes the factor slice
directly; in this pipeline the slice always has exactly 4 entries.) -/
def areMaterialsEqual (a b : GltfMaterial) : Bool :=
  decide (a.pbrMetallicRoughness.baseColorFactor.getD 0 0 =
      b.pbrMetallicRoughness.baseColorFactor.getD 0 0) &&
  decide (a.pbrMetallicRoughness.baseColorFactor.getD 1 0 =
      b.pbrMetallicRoughness.baseColorFactor.getD 1 0) &&
  decide (a.pbrMetallicRoughness.baseColorFactor.getD 2 0 =
      b.pbrMetallicRoughness.baseColorFactor.getD 2 0) &&
  decide (a.pbrMetallicRoughness.baseColorFactor.getD 3 0 =
      b.pbrMetallicRoughness.baseColorFactor.getD 3 0) &&
  decide (a.pbrMetallicRoughness.metallicFactor = b.pbrMetallicRoughness.metallicFactor) &&
  decide (a.pbrMetallicRoughness.roughnessFactor = b.pbrMetallicRoughness.roughnessFactor)

/-- The linear scan inside addMaterial: index of the first list entry
equal (in the sense of `areMaterialsEqual`) to the candidate. -/
def findMaterial (material : GltfMaterial) : List GltfMaterial → Option ℕ
  | [] => none
  | m :: rest =>
      if areMaterialsEqual m material then some 0 else (findMaterial material rest).map (· + 1)

/-- addMaterial (part_001 lines 457-470): return the index of the first
equal entry and the unchanged list, or append and return the new last
index. -/
def addMaterial (material : GltfMaterial) (gltfMaterials : List GltfMaterial) :
    ℕ × List GltfMaterial :=
  match findMaterial material gltfMaterials with
  | some i => (i, gltfMaterials)
  | none => (gltfMaterials.length, gltfMaterials ++ [material])

/-- gltfMaterial (part_001 lines 488-508): derive the glTF PBR material
from a source Material. -/
def gltfMaterial (material : Material) : GltfMaterial :=
  { doubleSided := true
    alphaMode := if material.opacity < 1 then some "BLEND" else none
    pbrMetallicRoughness :=
      { baseColorFactor := [material.diffuseColor.f0, material.diffuseColor.f1,
          material.diffuseColor.f2, material.opacity]
        baseColorTexture := none
        metallicFactor := 0
        roughnessFactor := 1 - material.specularPower / 128 } }

/-- mapRange (part_001 lines 857-859). -/
def mapRange (x inMin inMax outMin outMax : ℚ) : ℚ :=
  (x - inMin) * (outMax - outMin) / (inMax - inMin) + outMin

/-- Two's-complement wrap of an integer into the int32 range, applied at
every point where the Go code converts to or computes in `int32`. -/
def toInt32 (z : ℤ) : ℤ := (z + 2 ^ 31) % 2 ^ 32 - 2 ^ 31

/-- The triangle-index shift of the consolidator: each of the three
int32 indices gets the int32 vertex offset added (int32 arithmetic). -/
def shiftTriangle (vertexOffset : ℤ) (t : Triangle) : Triangle :=
  ⟨toInt32 (t.i0 + vertexOffset), toInt32 (t.i1 + vertexOffset), toInt32 (t.i2 + vertexOffset)⟩

/-- The per-vertex color remap of the vertex-color branch (part_001
lines 576-580): R, G and B are remapped from [0,1] to [0.04,0.85],
alpha is untouched. -/
def remapColorVertex (vertex : Vertex) : Vertex :=
  { vertex with color := { vertex.color with
      r := mapRange vertex.color.r 0 1 0.04 0.85
      g := mapRange vertex.color.g 0 1 0.04 0.85
      b := mapRange vertex.color.b 0 1 0.04 0.85 } }

/-- One RGBA pixel of the 32×32 texture atlas raster. -/
structure RGBA where
  r : ℕ
  g : ℕ
  b : ℕ
  a : ℕ
deriving DecidableEq, Inhabited, Repr

/-- The atlas raster: pixel value at each (x, y) coordinate. -/
abbrev Atlas := ℕ × ℕ → RGBA

/-- `image.NewRGBA(image.Rect(0, 0, 32, 32))`: a zeroed raster. -/
def blankAtlas : Atlas := fun _ => ⟨0, 0, 0, 0⟩

/-- `img.Set x y c`: in-bounds writes update the pixel, out-of-bounds
writes are dropped (the behavior of Go's image.RGBA.Set). -/
def setPixel (img : Atlas) (x y : ℕ) (c : RGBA) : Atlas :=
  if x < 32 ∧ y < 32 then fun p => if p = (x, y) then c else img p else img

/-- Go's float-to-uint8 conversion (truncation toward zero) for the
non-negative in-range values this pipeline produces. -/
def goUint8 (q : ℚ) : ℕ := Int.toNat ⌊q⌋

/-- The atlas pixel written for one source mesh (part_001 lines
529-542): diffuse color remapped to [0.04,0.85] and scaled to a byte,
alpha the opacity scaled to [0,255]. -/
def atlasPixel (material : Material) : RGBA :=
  let dR := mapRange material.diffuseColor.f0 0 1 0.04 0.85
  let dG := mapRange material.diffuseColor.f1 0 1 0.04 0.85
  let dB := mapRange material.diffuseColor.f2 0 1 0.04 0.85
  ⟨goUint8 (dR * 255), goUint8 (dG * 255), goUint8 (dB * 255),
   goUint8 (material.opacity * 255)⟩

/-- The UV coordinate at the center of atlas grid cell (x, y)
(part_001 lines 547-550). -/
def uvCenter (x y : ℕ) : Vector2 :=
  ⟨(x : ℚ) / 32 + 0.5 / 32, (y : ℚ) / 32 + 0.5 / 32⟩

/-- One iteration of the texture-atlas branch of optimizeModel
(part_001 lines 523-567): the state is (finalVertices, finalFaces,
atlas raster), the input the (loop index, mesh) pair. -/
def atlasStep (st : List Vertex × List Triangle × Atlas) (p : ℕ × Geometry) :
    List Vertex × List Triangle × Atlas :=
  let vertexOffset := toInt32 (st.1.length : ℤ)
  let x := p.1 % 32
  let y := p.1 / 32
  (st.1 ++ p.2.vertices.map (fun vertex => { vertex with uv := uvCenter x y }),
   st.2.1 ++ p.2.faces.map (shiftTriangle vertexOffset),
   setPixel st.2.2 x y (atlasPixel p.2.material))

/-- One iteration of the vertex-color branch of optimizeModel (part_001
lines 573-595). -/
def vcStep (st : List Vertex × List Triangle) (mesh : Geometry) :
    List Vertex × List Triangle :=
  (st.1 ++ mesh.vertices.map remapColorVertex,
   st.2 ++ mesh.faces.map (shiftTriangle (toInt32 (st.1.length : ℤ))))

/-- The placeholder material of the consolidated mesh (part_001 lines
604-611). -/
def combinedMaterial : Material :=
  ⟨⟨1, 1, 1⟩, ⟨1, 1, 1⟩, ⟨1, 1, 1⟩, 128, ⟨1, 1, 1⟩, 1⟩

/-- optimizeModel (part_001 lines 511-618): merge all sub-meshes into
one, in one of the two color modes.  The returned atlas is the filled
raster (the Go code hands it to the external PNG encoder; in
vertex-color mode the raster stays blank and the Go buffer empty). -/
def optimizeModel (vertexColors : Bool) (meshes : Model) : Model × Atlas :=
  if vertexColors then
    let st := meshes.meshes.foldl vcStep ([], [])
    (⟨[⟨st.1, st.2, combinedMaterial⟩]⟩, blankAtlas)
  else
    let st := (meshes.meshes.enumFrom 0).foldl atlasStep ([], [], blankAtlas)
    (⟨[⟨st.1, st.2.1, combinedMaterial⟩]⟩, st.2.2)

/-- getVertices (part_001 lines 742-750). -/
def getVertices (mesh : Geometry) : List Vector3 := mesh.vertices.map Vertex.position

/-- getNormals (part_001 lines 752-760). -/
def getNormals (mesh : Geometry) : List Vector3 := mesh.vertices.map Vertex.normal

/-- getUVCoords (part_001 lines 762-770). -/
def getUVCoords (mesh : Geometry) : List Vector2 := mesh.vertices.map Vertex.uv

/-- getVertexColors (part_001 lines 772-780). -/
def getVertexColors (mesh : Geometry) : List Vector4 := mesh.vertices.map Vertex.color

/-- meshInfoAssociation (part_000 lines 121-128).  The accessor index
fields not set by the active color mode keep the Go zero value 0. -/
structure MeshAssoc where
  meshIndicesAccessorIndex : ℕ
  meshVerticesAccessorIndex : ℕ
  meshNormalsAccessorIndex : ℕ
  meshMaterialIndex : ℕ
  meshUVAccessorIndex : ℕ
  meshVertexColorAccessorIndex : ℕ
deriving DecidableEq, Inhabited, Repr

/-- The state of the per-mesh loop of ToGltfDoc. -/
structure DocState where
  pack : PackState
  materials : List GltfMaterial
  assocs : List MeshAssoc
deriving DecidableEq, Inhabited, Repr

/-- One iteration of the per-mesh loop of ToGltfDoc (part_001 lines
634-681): pack indices, positions, normals, then either vertex colors
(vertex-color mode) or UVs (texture-atlas mode, with the base-color
texture reference set), overwrite the base color factor with
[1, 1, 1, 1], deduplicate the material and record the association. -/
def toGltfStep (vertexColors : Bool) (st : DocState) (mesh : Geometry) : DocState :=
  let thisMaterial := gltfMaterial mesh.material
  let r1 := getAccessorIndexFromIndices st.pack mesh.faces
  let r2 := getAccessorIndexFromVector3 r1.1 (getVertices mesh)
  let r3 := getAccessorIndexFromVector3 r2.1 (getNormals mesh)
  let branch :=
    if vertexColors then
      let r4 := getAccessorIndexFromVector4 r3.1 (getVertexColors mesh)
      (r4.1, 0, r4.2,
        { thisMaterial with pbrMetallicRoughness :=
            { thisMaterial.pbrMetallicRoughness with baseColorTexture := none } })
    else
      let r4 := getAccessorIndexFromVector2 r3.1 (getUVCoords mesh)
      (r4.1, r4.2, 0,
        { thisMaterial with pbrMetallicRoughness :=
            { thisMaterial.pbrMetallicRoughness with baseColorTexture := some 0 } })
  let mat2 := { branch.2.2.2 with pbrMetallicRoughness :=
      { branch.2.2.2.pbrMetallicRoughness with baseColorFactor := [1, 1, 1, 1] } }
  let added := addMaterial mat2 st.materials
  { pack := branch.1
    materials := added.2
    assocs := st.assocs ++ [⟨r1.2, r2.2, r3.2, added.1, branch.2.1, branch.2.2.1⟩] }

/-- ToGltfDoc (part_001 lines 621-740): run the per-mesh loop, then
assemble the one mesh / node / scene document around the packed buffer.
The atlas image and its base64 data URI are produced by external
encoders; only the texture reference is modelled. -/
def ToGltfDoc (vertexColors : Bool) (model : Model) : GlTF :=
  let st := model.meshes.foldl (toGltfStep vertexColors) ⟨⟨[], [], []⟩, [], []⟩
  let meshPrimitives := st.assocs.map (fun assoc =>
    { attributes := [("POSITION", assoc.meshVerticesAccessorIndex),
        ("NORMAL", assoc.meshNormalsAccessorIndex)] ++
        (if vertexColors then [("COLOR_0", assoc.meshVertexColorAccessorIndex)]
         else [("TEXCOORD_0", assoc.meshUVAccessorIndex)])
      indices := assoc.meshIndicesAccessorIndex
      material := assoc.meshMaterialIndex : MeshPrimitive })
  { accessors := st.pack.accessors
    buffers := [⟨bufLen st.pack.buf, st.pack.buf⟩]
    bufferViews := st.pack.views
    materials := st.materials
    meshes := [⟨meshPrimitives⟩]
    nodes := [⟨0⟩]
    scene := 0
    scenes := [⟨[0]⟩]
    textures := if vertexColors then [] else [0] }

/-- The JSON object keys the external JSON encoder emits for a
MaterialPbrMetallicRoughness value, following the documented Go
encoding/json field-tag semantics and the tags in part_000 lines
101-110: `BaseColorFactor` carries tag `json:"-"` and is always
skipped, `BaseColorTexture` and `RoughnessFactor` carry `omitempty` and
are skipped when empty/zero, `MetallicFactor` is always emitted.
Fields that are `nil` in every document this program builds
(extensions, extras, metallic-roughness texture) are omitted. -/
def pbrJsonKeys (pbr : MaterialPbrMetallicRoughness) : List String :=
  (match pbr.baseColorTexture with
   | some _ => ["baseColorTexture"]
   | none => []) ++
  ["metallicFactor"] ++
  (if pbr.roughnessFactor = 0 then [] else ["roughnessFactor"])

/-- The alignment property of every buffer view the packer creates. -/
def ViewAligned (view : BufferView) : Prop :=
  view.byteOffset % 4 = 0 ∧ (view.byteOffset + view.byteLength) % 4 = 0

/-- A concrete one-triangle mesh used by the witness theorems. -/
def sampleMaterial : Material := ⟨⟨1, 0, 0⟩, ⟨1, 0, 0⟩, ⟨0, 0, 0⟩, 0, ⟨0, 0, 0⟩, 1⟩

def sampleVertex1 : Vertex := ⟨⟨1, 0, 0, 1⟩, ⟨0, 0, 0⟩, ⟨0, 0, 1⟩, ⟨0, 0⟩⟩

def sampleVertex2 : Vertex := ⟨⟨1, 0, 0, 1⟩, ⟨1, 0, 0⟩, ⟨0, 0, 1⟩, ⟨0, 0⟩⟩

def sampleVertex3 : Vertex := ⟨⟨1, 0, 0, 1⟩, ⟨0, 1, 0⟩, ⟨0, 0, 1⟩, ⟨0, 0⟩⟩

def sampleGeometry : Geometry :=
  ⟨[sampleVertex1, sampleVertex2, sampleVertex3], [⟨0, 1, 2⟩], sampleMaterial⟩

def sampleModel : Model := ⟨[sampleGeometry]⟩

/-- Number of vertices in the first k source meshes (the running vertex
count when mesh k is processed). -/
def vertsBefore (meshes : List Geometry) (k : ℕ) : ℕ :=
  ((meshes.take k).map (fun g => g.vertices.length)).sum

/-- Number of triangles in the first k source meshes. -/
def facesBefore (meshes : List Geometry) (k : ℕ) : ℕ :=
  ((meshes.take k).map (fun g => g.faces.length)).sum

/-- Total vertex count of a mesh list. -/
def totalVerts (meshes : List Geometry) : ℕ :=
  (meshes.map (fun g => g.vertices.length)).sum

/-- Total triangle count of a mesh list. -/
def totalFaces (meshes : List Geometry) : ℕ :=
  (meshes.map (fun g => g.faces.length)).sum

/-- The claim-side triangle shift: plain (unwrapped) addition of the
running vertex count to the three indices. -/
def plusOffset (n : ℕ) (t : Triangle) : Triangle := ⟨t.i0 + n, t.i1 + n, t.i2 + n⟩

/-- The face stream the consolidator produces: each mesh's triangles
shifted by the int32 image of the running vertex count. -/
def facesJoin : List Geometry → ℕ → List Triangle
  | [], _ => []
  | g :: gs, n => g.faces.map (shiftTriangle (toInt32 n)) ++ facesJoin gs (n + g.vertices.length)

/-- The sequence of pixel writes the atlas branch performs. -/
def atlasWrites : List Geometry → ℕ → Atlas → Atlas
  | [], _, img => img
  | g :: gs, n, img => atlasWrites gs (n + 1) (setPixel img (n % 32) (n / 32) (atlasPixel g.material))

/-- The no-overflow precondition for one triangle: its indices are
non-negative and stay inside the int32 range after the largest possible
vertex offset is added. -/
abbrev triIndicesOk (t : Triangle) (total : ℕ) : Prop :=
  0 ≤ t.i0 ∧ t.i0 + total < 2 ^ 31 ∧ 0 ≤ t.i1 ∧ t.i1 + total < 2 ^ 31 ∧
  0 ≤ t.i2 ∧ t.i2 + total < 2 ^ 31

/-- The 6-tuple of fields areMaterialsEqual actually compares. -/
def matKey6 (a : GltfMaterial) : ℚ × ℚ × ℚ × ℚ × ℚ × ℚ :=
  (a.pbrMetallicRoughness.baseColorFactor.getD 0 0,
   a.pbrMetallicRoughness.baseColorFactor.getD 1 0,
   a.pbrMetallicRoughness.baseColorFactor.getD 2 0,
   a.pbrMetallicRoughness.baseColorFactor.getD 3 0,
   a.pbrMetallicRoughness.metallicFactor,
   a.pbrMetallicRoughness.roughnessFactor)

/-- One step of the material-deduplication fold, carrying the output
material list and the per-mesh assigned indices. -/
def matStep (st : List GltfMaterial × List ℕ) (key : GltfMaterial) :
    List GltfMaterial × List ℕ :=
  ((addMaterial key st.1).2, st.2 ++ [(addMaterial key st.1).1])

/-- The deduplication state after processing a list of derived material
keys. -/
def dedupState (keys : List GltfMaterial) : List GltfMaterial × List ℕ :=
  keys.foldl matStep ([], [])

/-- Floor of the base-2 logarithm of a natural number, fuel-driven so
that concrete evaluation reduces structurally; `ilog2Nat n n` computes
the floor log2 of `n` for `n > 0`. -/
def ilog2Nat : ℕ → ℕ → ℕ
  | 0, _ => 0
  | fuel + 1, n => if 2 ≤ n then ilog2Nat fuel (n / 2) + 1 else 0

/-- 2 to an integer power, as a rational. -/
def pow2z (e : ℤ) : ℚ := if 0 ≤ e then (2 : ℚ) ^ e.toNat else ((2 : ℚ) ^ (-e).toNat)⁻¹

/-- Floor of the base-2 logarithm of a positive rational: the candidate
from the numerator and denominator bit lengths is off by at most one
and is corrected by direct comparison. -/
def ilog2Rat (q : ℚ) : ℤ :=
  let k : ℤ := (ilog2Nat q.num.natAbs q.num.natAbs : ℤ) - (ilog2Nat q.den q.den : ℤ)
  if pow2z (k + 1) ≤ q then k + 1 else if pow2z k ≤ q then k else k - 1

/-- Round a rational to the nearest integer, ties to even. -/
def roundHalfEven (x : ℚ) : ℤ :=
  if x - ⌊x⌋ < 1 / 2 then ⌊x⌋
  else if 1 / 2 < x - ⌊x⌋ then ⌊x⌋ + 1
  else if ⌊x⌋ % 2 = 0 then ⌊x⌋ else ⌊x⌋ + 1

/-- Round a rational to the IEEE-754 binary64 grid: round to nearest,
ties to even, 53-bit significand, with unbounded exponent range (exact
for the normal-range, non-overflowing values this pipeline computes).
The significand of a nonzero `q` spans bits `ilog2 |q| - 52 ..
ilog2 |q|`, so `q` is scaled into that window, rounded half-to-even,
and scaled back. -/
def fl64 (q : ℚ) : ℚ :=
  if q = 0 then 0
  else
    let e := ilog2Rat |q| - 52
    (roundHalfEven (q / pow2z e) : ℚ) * pow2z e

/-- The roughness factor exactly as the Go program computes it
(part_001 line 499): `1.0 - (float64(material.SpecularPower) / 128.0)`
in IEEE float64 arithmetic — the float32-to-float64 conversion of the
specular power is exact, and each float64 operation rounds its exact
result to binary64.  This map is not injective: distinct small
specular powers can round to the same roughness (e.g. any
`sp <= 2 ^ (-46)` gives exactly 1). -/
def roughness64 (sp : ℚ) : ℚ := fl64 (1 - fl64 (sp / 128))

/-- gltfMaterial (part_001 lines 488-508) with the roughness factor
computed at float64 precision as the Go arithmetic performs it; it
differs from `gltfMaterial` (which keeps the exact-rational formula of
the spec) only in that rounding. -/
def gltfMaterial64 (material : Material) : GltfMaterial :=
  { doubleSided := true
    alphaMode := if material.opacity < 1 then some "BLEND" else none
    pbrMetallicRoughness :=
      { baseColorFactor := [material.diffuseColor.f0, material.diffuseColor.f1,
          material.diffuseColor.f2, material.opacity]
        baseColorTexture := none
        metallicFactor := 0
        roughnessFactor := roughness64 material.specularPower } }

/-- The per-mesh loop of ToGltfDoc with the float64-precision material
derivation; in every other respect identical to `toGltfStep`. -/
def toGltfStep64 (vertexColors : Bool) (st : DocState) (mesh : Geometry) : DocState :=
  let thisMaterial := gltfMaterial64 mesh.material
  let r1 := getAccessorIndexFromIndices st.pack mesh.faces
  let r2 := getAccessorIndexFromVector3 r1.1 (getVertices mesh)
  let r3 := getAccessorIndexFromVector3 r2.1 (getNormals mesh)
  let branch :=
    if vertexColors then
      let r4 := getAccessorIndexFromVector4 r3.1 (getVertexColors mesh)
      (r4.1, 0, r4.2,
        { thisMaterial with pbrMetallicRoughness :=
            { thisMaterial.pbrMetallicRoughness with baseColorTexture := none } })
    else
      let r4 := getAccessorIndexFromVector2 r3.1 (getUVCoords mesh)
      (r4.1, r4.2, 0,
        { thisMaterial with pbrMetallicRoughness :=
            { thisMaterial.pbrMetallicRoughness with baseColorTexture := some 0 } })
  let mat2 := { branch.2.2.2 with pbrMetallicRoughness :=
      { branch.2.2.2.pbrMetallicRoughness with baseColorFactor := [1, 1, 1, 1] } }
  let added := addMaterial mat2 st.materials
  { pack := branch.1
    materials := added.2
    assocs := st.assocs ++ [⟨r1.2, r2.2, r3.2, added.1, branch.2.1, branch.2.2.1⟩] }

/-- ToGltfDoc (part_001 lines 621-740) with the roughness computation
modelled at float64 precision: identical to `ToGltfDoc` except that the
per-mesh material derivation rounds the roughness as the Go float64
arithmetic does. -/
def ToGltfDoc64 (vertexColors : Bool) (model : Model) : GlTF :=
  let st := model.meshes.foldl (toGltfStep64 vertexColors) ⟨⟨[], [], []⟩, [], []⟩
  let meshPrimitives := st.assocs.map (fun assoc =>
    { attributes := [("POSITION", assoc.meshVerticesAccessorIndex),
        ("NORMAL", assoc.meshNormalsAccessorIndex)] ++
        (if vertexColors then [("COLOR_0", assoc.meshVertexColorAccessorIndex)]
         else [("TEXCOORD_0", assoc.meshUVAccessorIndex)])
      indices := assoc.meshIndicesAccessorIndex
      material := assoc.meshMaterialIndex : MeshPrimitive })
  { accessors := st.pack.accessors
    buffers := [⟨bufLen st.pack.buf, st.pack.buf⟩]
    bufferViews := st.pack.views
    materials := st.materials
    meshes := [⟨meshPrimitives⟩]
    nodes := [⟨0⟩]
    scene := 0
    scenes := [⟨[0]⟩]
    textures := if vertexColors then [] else [0] }

/-- The derived material key the assembler deduplicates on (float64
roughness): the glTF material of the source material, base-color
texture set per mode and base-color factor overwritten with
[1, 1, 1, 1]. -/
def meshKey64 (vc : Bool) (material : Material) : GltfMaterial :=
  let m := gltfMaterial64 material
  { m with pbrMetallicRoughness :=
      { m.pbrMetallicRoughness with
          baseColorFactor := [1, 1, 1, 1]
          baseColorTexture := if vc then none else some 0 } }

/-- A concrete material with specular power 2^-50: an exact float32
value for which `1 - sp/128` rounds to exactly 1.0 in float64. -/
def cexMaterialA : Material := ⟨⟨1, 0, 0⟩, ⟨1, 0, 0⟩, ⟨0, 0, 0⟩, (2 ^ 50 : ℚ)⁻¹, ⟨0, 0, 0⟩, 1⟩

/-- A concrete material with the distinct specular power 2^-60, whose
roughness also rounds to exactly 1.0 in float64. -/
def cexMaterialB : Material := ⟨⟨1, 0, 0⟩, ⟨1, 0, 0⟩, ⟨0, 0, 0⟩, (2 ^ 60 : ℚ)⁻¹, ⟨0, 0, 0⟩, 1⟩

def cexGeometryA : Geometry :=
  ⟨[sampleVertex1, sampleVertex2, sampleVertex3], [⟨0, 1, 2⟩], cexMaterialA⟩

def cexGeometryB : Geometry :=
  ⟨[sampleVertex1, sampleVertex2, sampleVertex3], [⟨0, 1, 2⟩], cexMaterialB⟩

/-! ## Helper lemmas and claim theorems -/

lemma length_flatMap_const {α β : Type} (l : List α) (f : α → List β) (k : ℕ)
    (h : ∀ a, (f a).length = k) : (l.flatMap f).length = k * l.length := by
  induction l with
  | nil => simp
  | cons a rest ih => simp [List.flatMap_cons, h, ih, Nat.mul_succ, Nat.add_comm]

lemma foldl_min_le_init {α : Type} [LinearOrder α] : ∀ (l : List α) (a : α), l.foldl min a ≤ a := by
  intro l
  induction l with
  | nil => simp
  | cons b rest ih =>
      intro a
      calc (b :: rest).foldl min a = rest.foldl min (min a b) := rfl
        _ ≤ min a b := ih _
        _ ≤ a := min_le_left _ _

lemma foldl_min_le_mem {α : Type} [LinearOrder α] :
    ∀ (l : List α) (a x : α), x ∈ l → l.foldl min a ≤ x := by
  intro l
  induction l with
  | nil => intro a x hx; cases hx
  | cons b rest ih =>
      intro a x hx
      rcases List.mem_cons.mp hx with h | h
      · subst h
        calc (x :: rest).foldl min a = rest.foldl min (min a x) := rfl
          _ ≤ min a x := foldl_min_le_init _ _
          _ ≤ x := min_le_right _ _
      · exact ih (min a b) x h

lemma init_le_foldl_max {α : Type} [LinearOrder α] : ∀ (l : List α) (a : α), a ≤ l.foldl max a := by
  intro l
  induction l with
  | nil => simp
  | cons b rest ih =>
      intro a
      calc a ≤ max a b := le_max_left _ _
        _ ≤ rest.foldl max (max a b) := ih _
        _ = (b :: rest).foldl max a := rfl

lemma mem_le_foldl_max {α : Type} [LinearOrder α] :
    ∀ (l : List α) (a x : α), x ∈ l → x ≤ l.foldl max a := by
  intro l
  induction l with
  | nil => intro a x hx; cases hx
  | cons b rest ih =>
      intro a x hx
      rcases List.mem_cons.mp hx with h | h
      · subst h
        calc x ≤ max a x := le_max_right _ _
          _ ≤ rest.foldl max (max a x) := init_le_foldl_max _ _
          _ = (x :: rest).foldl max a := rfl
      · exact ih (max a b) x h

/-- Claim C6: for every source Material, the derived glTF material has
alphaMode "BLEND" exactly when opacity < 1 (and none otherwise), is
always double-sided, has roughnessFactor = 1 - specularPower/128 and
metallicFactor = 0. -/
theorem gltfMaterial_alpha_doubleSided_roughness_metallic (material : Material) :
    ((gltfMaterial material).alphaMode = some "BLEND" ↔ material.opacity < 1) ∧
    (gltfMaterial material).doubleSided = true ∧
    (gltfMaterial material).pbrMetallicRoughness.roughnessFactor
      = 1 - material.specularPower / 128 ∧
    (gltfMaterial material).pbrMetallicRoughness.metallicFactor = 0 := by
  refine ⟨?_, rfl, rfl, rfl⟩
  by_cases h : material.opacity < 1 <;> simp [gltfMaterial, h]

lemma bufLen_append (a b : List BufEntry) : bufLen (a ++ b) = bufLen a + 4 * b.length := by
  simp [bufLen, Nat.mul_add]

/-- Claim C4: every append by the Typed Buffer Packer creates exactly one
new BufferView (byteOffset = buffer length before the write, byteLength
= bytes written, byteStride 8, 12 or 16 for 2-, 3- or 4-vectors and none, i.e.
the omitted zero value, for index triples) and exactly one new Accessor
referencing that BufferView, with componentType 5126 for vectors and
5125 for indices, count = element count (3 x triangle count for
indices) and type "VEC2"/"VEC3"/"VEC4"/"SCALAR"; the returned index is
the index of the new accessor. -/
theorem packer_bufferView_accessor_shape (s : PackState) (v2 : List Vector2)
    (v3 : List Vector3) (v4 : List Vector4) (tris : List Triangle) :
    ((getAccessorIndexFromVector2 s v2).1.views
        = s.views ++ [⟨0, bufLen s.buf, 8 * v2.length, 8, 34962⟩] ∧
      (getAccessorIndexFromVector2 s v2).1.accessors.length = s.accessors.length + 1 ∧
      (getAccessorIndexFromVector2 s v2).1.accessors.take s.accessors.length = s.accessors ∧
      ((getAccessorIndexFromVector2 s v2).1.accessors.getLastD default).bufferView
        = s.views.length ∧
      ((getAccessorIndexFromVector2 s v2).1.accessors.getLastD default).componentType = 5126 ∧
      ((getAccessorIndexFromVector2 s v2).1.accessors.getLastD default).count = v2.length ∧
      ((getAccessorIndexFromVector2 s v2).1.accessors.getLastD default).type = "VEC2" ∧
      (getAccessorIndexFromVector2 s v2).2 = s.accessors.length) ∧
    ((getAccessorIndexFromVector3 s v3).1.views
        = s.views ++ [⟨0, bufLen s.buf, 12 * v3.length, 12, 34962⟩] ∧
      (getAccessorIndexFromVector3 s v3).1.accessors.length = s.accessors.length + 1 ∧
      (getAccessorIndexFromVector3 s v3).1.accessors.take s.accessors.length = s.accessors ∧
      ((getAccessorIndexFromVector3 s v3).1.accessors.getLastD default).bufferView
        = s.views.length ∧
      ((getAccessorIndexFromVector3 s v3).1.accessors.getLastD default).componentType = 5126 ∧
      ((getAccessorIndexFromVector3 s v3).1.accessors.getLastD default).count = v3.length ∧
      ((getAccessorIndexFromVector3 s v3).1.accessors.getLastD default).type = "VEC3" ∧
      (getAccessorIndexFromVector3 s v3).2 = s.accessors.length) ∧
    ((getAccessorIndexFromVector4 s v4).1.views
        = s.views ++ [⟨0, bufLen s.buf, 16 * v4.length, 16, 34962⟩] ∧
      (getAccessorIndexFromVector4 s v4).1.accessors.length = s.accessors.length + 1 ∧
      (getAccessorIndexFromVector4 s v4).1.accessors.take s.accessors.length = s.accessors ∧
      ((getAccessorIndexFromVector4 s v4).1.accessors.getLastD default).bufferView
        = s.views.length ∧
      ((getAccessorIndexFromVector4 s v4).1.accessors.getLastD default).componentType = 5126 ∧
      ((getAccessorIndexFromVector4 s v4).1.accessors.getLastD default).count = v4.length ∧
      ((getAccessorIndexFromVector4 s v4).1.accessors.getLastD default).type = "VEC4" ∧
      (getAccessorIndexFromVector4 s v4).2 = s.accessors.length) ∧
    ((getAccessorIndexFromIndices s tris).1.views
        = s.views ++ [⟨0, bufLen s.buf, 12 * tris.length, 0, 34963⟩] ∧
      (getAccessorIndexFromIndices s tris).1.accessors.length = s.accessors.length + 1 ∧
      (getAccessorIndexFromIndices s tris).1.accessors.take s.accessors.length = s.accessors ∧
      ((getAccessorIndexFromIndices s tris).1.accessors.getLastD default).bufferView
        = s.views.length ∧
      ((getAccessorIndexFromIndices s tris).1.accessors.getLastD default).componentType = 5125 ∧
      ((getAccessorIndexFromIndices s tris).1.accessors.getLastD default).count
        = 3 * tris.length ∧
      ((getAccessorIndexFromIndices s tris).1.accessors.getLastD default).type = "SCALAR" ∧
      (getAccessorIndexFromIndices s tris).2 = s.accessors.length) := by
  have h2 : (v2.flatMap (fun w => [BufEntry.f32 w.u, BufEntry.f32 w.v])).length
      = 2 * v2.length := length_flatMap_const _ _ 2 (fun _ => rfl)
  have h3 : (v3.flatMap (fun w =>
      [BufEntry.f32 w.x, BufEntry.f32 w.y, BufEntry.f32 w.z])).length
      = 3 * v3.length := length_flatMap_const _ _ 3 (fun _ => rfl)
  have h4 : (v4.flatMap (fun w =>
      [BufEntry.f32 w.r, BufEntry.f32 w.g, BufEntry.f32 w.b, BufEntry.f32 w.a])).length
      = 4 * v4.length := length_flatMap_const _ _ 4 (fun _ => rfl)
  have ht : (tris.flatMap (fun t =>
      [BufEntry.i32 t.i0, BufEntry.i32 t.i1, BufEntry.i32 t.i2])).length
      = 3 * tris.length := length_flatMap_const _ _ 3 (fun _ => rfl)
  refine ⟨⟨?_, ?_, ?_, ?_, ?_, ?_, ?_, ?_⟩, ⟨?_, ?_, ?_, ?_, ?_, ?_, ?_, ?_⟩,
    ⟨?_, ?_, ?_, ?_, ?_, ?_, ?_, ?_⟩, ⟨?_, ?_, ?_, ?_, ?_, ?_, ?_, ?_⟩⟩ <;>
    simp [getAccessorIndexFromVector2, getAccessorIndexFromVector3,
      getAccessorIndexFromVector4, getAccessorIndexFromIndices,
      addVector2ArrayToBuffer, addVector3ArrayToBuffer, addVector4ArrayToBuffer,
      addTriangleArrayToBuffer, bufLen_append, h2, h3, h4, ht,
      List.getLastD_concat, List.take_left, Nat.mul_comm] <;> omega

lemma serializeBinaryGlTF_length (outJSON bufferBytes : List ℕ) :
    (SerializeBinaryGlTF outJSON bufferBytes).length
      = 28 + (outJSON.length + pad4 outJSON.length)
          + (bufferBytes.length + pad4 bufferBytes.length) := by
  simp [SerializeBinaryGlTF, le32]
  omega

/-- Claim C1: SerializeBinaryGlTF produces, in order: the 4 ASCII bytes
"glTF", little-endian 32-bit 2, a little-endian 32-bit total file
length, a JSON chunk (little-endian 32-bit chunk length, ASCII "JSON",
the JSON text padded with ASCII spaces to a multiple of 4), then a
binary chunk (little-endian 32-bit chunk length, the bytes "BIN\0", the
packed buffer padded with null bytes to a multiple of 4); each declared
chunk length equals the padded chunk payload length, and the declared
total file length equals the exact number of bytes of the result. -/
theorem serializeBinaryGlTF_layout (outJSON bufferBytes : List ℕ) :
    pad4 outJSON.length < 4 ∧ pad4 bufferBytes.length < 4 ∧
    (outJSON.length + pad4 outJSON.length) % 4 = 0 ∧
    (bufferBytes.length + pad4 bufferBytes.length) % 4 = 0 ∧
    (SerializeBinaryGlTF outJSON bufferBytes).length
      = 28 + (outJSON.length + pad4 outJSON.length)
          + (bufferBytes.length + pad4 bufferBytes.length) ∧
    SerializeBinaryGlTF outJSON bufferBytes
      = [103, 108, 84, 70] ++ le32 2
          ++ le32 (SerializeBinaryGlTF outJSON bufferBytes).length
          ++ le32 (outJSON.length + pad4 outJSON.length) ++ [74, 83, 79, 78]
          ++ (outJSON ++ List.replicate (pad4 outJSON.length) 32)
          ++ le32 (bufferBytes.length + pad4 bufferBytes.length) ++ [66, 73, 78, 0]
          ++ (bufferBytes ++ List.replicate (pad4 bufferBytes.length) 0) := by
  refine ⟨?_, ?_, ?_, ?_, serializeBinaryGlTF_length _ _, ?_⟩
  · simp only [pad4]; omega
  · simp only [pad4]; omega
  · simp only [pad4]; omega
  · simp only [pad4]; omega
  · rw [serializeBinaryGlTF_length]
    simp only [SerializeBinaryGlTF]
    have h : 4 + 4 + 4 + 4 + 4 + (outJSON.length + pad4 outJSON.length) + 4 + 4
        + (bufferBytes.length + pad4 bufferBytes.length)
        = 28 + (outJSON.length + pad4 outJSON.length)
          + (bufferBytes.length + pad4 bufferBytes.length) := by omega
    rw [h]
    simp [List.append_assoc]

/-- Claim C3: for every vector array (2-, 3- or 4-component) packed by
the Typed Buffer Packer, the min and max recorded in the resulting
accessor bound the data: for every component i and every packed element
w, min[i] <= w[i] <= max[i].  (The +-100 seeds only loosen the bounds,
they never invalidate them.) -/
theorem packer_accessor_minmax_bounds :
    (∀ (s : PackState) (data : List Vector2), ∀ w ∈ data,
      (((getAccessorIndexFromVector2 s data).1.accessors.getLastD default).min.getD 0 0 ≤ w.u ∧
        w.u ≤ ((getAccessorIndexFromVector2 s data).1.accessors.getLastD default).max.getD 0 0) ∧
      (((getAccessorIndexFromVector2 s data).1.accessors.getLastD default).min.getD 1 0 ≤ w.v ∧
        w.v ≤ ((getAccessorIndexFromVector2 s data).1.accessors.getLastD default).max.getD 1 0)) ∧
    (∀ (s : PackState) (data : List Vector3), ∀ w ∈ data,
      (((getAccessorIndexFromVector3 s data).1.accessors.getLastD default).min.getD 0 0 ≤ w.x ∧
        w.x ≤ ((getAccessorIndexFromVector3 s data).1.accessors.getLastD default).max.getD 0 0) ∧
      (((getAccessorIndexFromVector3 s data).1.accessors.getLastD default).min.getD 1 0 ≤ w.y ∧
        w.y ≤ ((getAccessorIndexFromVector3 s data).1.accessors.getLastD default).max.getD 1 0) ∧
      (((getAccessorIndexFromVector3 s data).1.accessors.getLastD default).min.getD 2 0 ≤ w.z ∧
        w.z ≤ ((getAccessorIndexFromVector3 s data).1.accessors.getLastD default).max.getD 2 0)) ∧
    (∀ (s : PackState) (data : List Vector4), ∀ w ∈ data,
      (((getAccessorIndexFromVector4 s data).1.accessors.getLastD default).min.getD 0 0 ≤ w.r ∧
        w.r ≤ ((getAccessorIndexFromVector4 s data).1.accessors.getLastD default).max.getD 0 0) ∧
      (((getAccessorIndexFromVector4 s data).1.accessors.getLastD default).min.getD 1 0 ≤ w.g ∧
        w.g ≤ ((getAccessorIndexFromVector4 s data).1.accessors.getLastD default).max.getD 1 0) ∧
      (((getAccessorIndexFromVector4 s data).1.accessors.getLastD default).min.getD 2 0 ≤ w.b ∧
        w.b ≤ ((getAccessorIndexFromVector4 s data).1.accessors.getLastD default).max.getD 2 0) ∧
      (((getAccessorIndexFromVector4 s data).1.accessors.getLastD default).min.getD 3 0 ≤ w.a ∧
        w.a ≤ ((getAccessorIndexFromVector4 s data).1.accessors.getLastD default).max.getD 3 0)) := by
  refine ⟨?_, ?_, ?_⟩
  · intro s data w hw
    simp only [getAccessorIndexFromVector2, addVector2ArrayToBuffer, List.getLastD_concat]
    exact ⟨⟨foldl_min_le_mem _ _ _ (List.mem_map_of_mem _ hw),
        mem_le_foldl_max _ _ _ (List.mem_map_of_mem _ hw)⟩,
      ⟨foldl_min_le_mem _ _ _ (List.mem_map_of_mem _ hw),
        mem_le_foldl_max _ _ _ (List.mem_map_of_mem _ hw)⟩⟩
  · intro s data w hw
    simp only [getAccessorIndexFromVector3, addVector3ArrayToBuffer, List.getLastD_concat]
    exact ⟨⟨foldl_min_le_mem _ _ _ (List.mem_map_of_mem _ hw),
        mem_le_foldl_max _ _ _ (List.mem_map_of_mem _ hw)⟩,
      ⟨foldl_min_le_mem _ _ _ (List.mem_map_of_mem _ hw),
        mem_le_foldl_max _ _ _ (List.mem_map_of_mem _ hw)⟩,
      ⟨foldl_min_le_mem _ _ _ (List.mem_map_of_mem _ hw),
        mem_le_foldl_max _ _ _ (List.mem_map_of_mem _ hw)⟩⟩
  · intro s data w hw
    simp only [getAccessorIndexFromVector4, addVector4ArrayToBuffer, List.getLastD_concat]
    exact ⟨⟨foldl_min_le_mem _ _ _ (List.mem_map_of_mem _ hw),
        mem_le_foldl_max _ _ _ (List.mem_map_of_mem _ hw)⟩,
      ⟨foldl_min_le_mem _ _ _ (List.mem_map_of_mem _ hw),
        mem_le_foldl_max _ _ _ (List.mem_map_of_mem _ hw)⟩,
      ⟨foldl_min_le_mem _ _ _ (List.mem_map_of_mem _ hw),
        mem_le_foldl_max _ _ _ (List.mem_map_of_mem _ hw)⟩,
      ⟨foldl_min_le_mem _ _ _ (List.mem_map_of_mem _ hw),
        mem_le_foldl_max _ _ _ (List.mem_map_of_mem _ hw)⟩⟩

/-- Claim C3 witness: the bounds evaluated on a concrete packed array. -/
theorem packer_accessor_minmax_bounds_witness :
    ((((getAccessorIndexFromVector3 ⟨[], [], []⟩ [⟨3, -7, 0⟩, ⟨1, 2, 150⟩]).1.accessors.getLastD
        default).min.getD 0 0 ≤ (3 : ℚ)) ∧
      ((3 : ℚ) ≤ ((getAccessorIndexFromVector3 ⟨[], [], []⟩
        [⟨3, -7, 0⟩, ⟨1, 2, 150⟩]).1.accessors.getLastD default).max.getD 0 0)) ∧
    ((((getAccessorIndexFromVector3 ⟨[], [], []⟩ [⟨3, -7, 0⟩, ⟨1, 2, 150⟩]).1.accessors.getLastD
        default).min.getD 2 0 ≤ (150 : ℚ)) ∧
      ((150 : ℚ) ≤ ((getAccessorIndexFromVector3 ⟨[], [], []⟩
        [⟨3, -7, 0⟩, ⟨1, 2, 150⟩]).1.accessors.getLastD default).max.getD 2 0)) := by
  have h := packer_accessor_minmax_bounds.2.1 ⟨[], [], []⟩ [⟨3, -7, 0⟩, ⟨1, 2, 150⟩]
  have h1 := h ⟨3, -7, 0⟩ (by decide)
  have h2 := h ⟨1, 2, 150⟩ (by decide)
  exact ⟨h1.1, h2.2.2⟩

lemma findMaterial_eq_some : ∀ (mats : List GltfMaterial) (mat : GltfMaterial) (i : ℕ),
    i < mats.length → areMaterialsEqual (mats.getD i default) mat = true →
    (∀ j, j < i → areMaterialsEqual (mats.getD j default) mat = false) →
    findMaterial mat mats = some i := by
  intro mats
  induction mats with
  | nil => intro mat i hi; simp at hi
  | cons m rest ih =>
      intro mat i hi heq hlt
      cases i with
      | zero =>
          simp only [List.getD_cons_zero] at heq
          simp [findMaterial, heq]
      | succ k =>
          have h0 : areMaterialsEqual m mat = false := by
            have := hlt 0 (Nat.succ_pos k)
            simpa using this
          have hrest : findMaterial mat rest = some k := by
            refine ih mat k (by simpa using hi) ?_ ?_
            · simpa using heq
            · intro j hj
              have := hlt (j + 1) (Nat.succ_lt_succ hj)
              simpa using this
          simp [findMaterial, h0, hrest]

lemma findMaterial_eq_none : ∀ (mats : List GltfMaterial) (mat : GltfMaterial),
    (∀ j, j < mats.length → areMaterialsEqual (mats.getD j default) mat = false) →
    findMaterial mat mats = none := by
  intro mats
  induction mats with
  | nil => intro mat _; rfl
  | cons m rest ih =>
      intro mat h
      have h0 : areMaterialsEqual m mat = false := by simpa using h 0 (Nat.succ_pos _)
      have hrest : findMaterial mat rest = none := by
        refine ih mat ?_
        intro j hj
        simpa using h (j + 1) (Nat.succ_lt_succ hj)
      simp [findMaterial, h0, hrest]

/-- Claim C7: the deduplicator linearly scans for an entry whose four
base-color-factor components, metallic factor and roughness factor are
all exactly equal; if one exists it returns the index of the first such
entry and leaves the list unchanged, otherwise it appends the material
and returns the new last index; consequently two meshes with identical
diffuse color, opacity and specular power share a single material
entry. -/
theorem addMaterial_first_index_or_append :
    (∀ (material : GltfMaterial) (mats : List GltfMaterial) (i : ℕ),
      i < mats.length →
      areMaterialsEqual (mats.getD i default) material = true →
      (∀ j, j < i → areMaterialsEqual (mats.getD j default) material = false) →
      addMaterial material mats = (i, mats)) ∧
    (∀ (material : GltfMaterial) (mats : List GltfMaterial),
      (∀ j, j < mats.length → areMaterialsEqual (mats.getD j default) material = false) →
      addMaterial material mats = (mats.length, mats ++ [material])) ∧
    (∀ (vc : Bool) (g1 g2 : Geometry),
      g1.material.diffuseColor = g2.material.diffuseColor →
      g1.material.opacity = g2.material.opacity →
      g1.material.specularPower = g2.material.specularPower →
      (ToGltfDoc vc ⟨[g1, g2]⟩).materials.length = 1 ∧
      (ToGltfDoc vc ⟨[g1, g2]⟩).meshes.headI.primitives.map MeshPrimitive.material = [0, 0]) := by
  refine ⟨?_, ?_, ?_⟩
  · intro material mats i hi heq hlt
    simp [addMaterial, findMaterial_eq_some mats material i hi heq hlt]
  · intro material mats h
    simp [addMaterial, findMaterial_eq_none mats material h]
  · intro vc g1 g2 hd ho hs
    cases vc <;>
      simp [ToGltfDoc, toGltfStep, gltfMaterial, addMaterial, findMaterial, hs,
        areMaterialsEqual]

lemma getD_map_of_lt {α β : Type} (f : α → β) (l : List α) (t : ℕ) (d : β) (d0 : α)
    (ht : t < l.length) : (l.map f).getD t d = f (l.getD t d0) := by
  rw [List.getD_eq_getElem _ _ (by simpa using ht), List.getElem_map,
    ← List.getD_eq_getElem _ d0 ht]

lemma getAccessorIndexFromVector2_views (s : PackState) (data : List Vector2) :
    ∀ view ∈ (getAccessorIndexFromVector2 s data).1.views, view ∈ s.views ∨ ViewAligned view := by
  intro view hview
  simp only [getAccessorIndexFromVector2, List.mem_append, List.mem_singleton] at hview
  rcases hview with h | h
  · exact Or.inl h
  · subst h
    refine Or.inr ⟨?_, ?_⟩ <;> (simp only [ViewAligned, bufLen]; omega)

lemma getAccessorIndexFromVector3_views (s : PackState) (data : List Vector3) :
    ∀ view ∈ (getAccessorIndexFromVector3 s data).1.views, view ∈ s.views ∨ ViewAligned view := by
  intro view hview
  simp only [getAccessorIndexFromVector3, List.mem_append, List.mem_singleton] at hview
  rcases hview with h | h
  · exact Or.inl h
  · subst h
    refine Or.inr ⟨?_, ?_⟩ <;> (simp only [ViewAligned, bufLen]; omega)

lemma getAccessorIndexFromVector4_views (s : PackState) (data : List Vector4) :
    ∀ view ∈ (getAccessorIndexFromVector4 s data).1.views, view ∈ s.views ∨ ViewAligned view := by
  intro view hview
  simp only [getAccessorIndexFromVector4, List.mem_append, List.mem_singleton] at hview
  rcases hview with h | h
  · exact Or.inl h
  · subst h
    refine Or.inr ⟨?_, ?_⟩ <;> (simp only [ViewAligned, bufLen]; omega)

lemma getAccessorIndexFromIndices_views (s : PackState) (data : List Triangle) :
    ∀ view ∈ (getAccessorIndexFromIndices s data).1.views, view ∈ s.views ∨ ViewAligned view := by
  intro view hview
  simp only [getAccessorIndexFromIndices, List.mem_append, List.mem_singleton] at hview
  rcases hview with h | h
  · exact Or.inl h
  · subst h
    refine Or.inr ⟨?_, ?_⟩ <;> (simp only [ViewAligned, bufLen]; omega)

lemma toGltfStep_views (vc : Bool) (st : DocState) (mesh : Geometry) :
    ∀ view ∈ (toGltfStep vc st mesh).pack.views, view ∈ st.pack.views ∨ ViewAligned view := by
  intro view hview
  cases vc with
  | true =>
      have h4 := getAccessorIndexFromVector4_views
        (getAccessorIndexFromVector3 (getAccessorIndexFromVector3
          (getAccessorIndexFromIndices st.pack mesh.faces).1 (getVertices mesh)).1
          (getNormals mesh)).1 (getVertexColors mesh) view (by exact hview)
      rcases h4 with h | h
      · rcases getAccessorIndexFromVector3_views _ _ view h with h | h
        · rcases getAccessorIndexFromVector3_views _ _ view h with h | h
          · rcases getAccessorIndexFromIndices_views _ _ view h with h | h
            · exact Or.inl h
            · exact Or.inr h
          · exact Or.inr h
        · exact Or.inr h
      · exact Or.inr h
  | false =>
      have h4 := getAccessorIndexFromVector2_views
        (getAccessorIndexFromVector3 (getAccessorIndexFromVector3
          (getAccessorIndexFromIndices st.pack mesh.faces).1 (getVertices mesh)).1
          (getNormals mesh)).1 (getUVCoords mesh) view (by exact hview)
      rcases h4 with h | h
      · rcases getAccessorIndexFromVector3_views _ _ view h with h | h
        · rcases getAccessorIndexFromVector3_views _ _ view h with h | h
          · rcases getAccessorIndexFromIndices_views _ _ view h with h | h
            · exact Or.inl h
            · exact Or.inr h
          · exact Or.inr h
        · exact Or.inr h
      · exact Or.inr h

lemma toGltfFold_views (vc : Bool) : ∀ (l : List Geometry) (st : DocState),
    (∀ view ∈ st.pack.views, ViewAligned view) →
    ∀ view ∈ (l.foldl (toGltfStep vc) st).pack.views, ViewAligned view := by
  intro l
  induction l with
  | nil => intro st h view hv; exact h view hv
  | cons g rest ih =>
      intro st h view hv
      refine ih (toGltfStep vc st g) ?_ view hv
      intro w hw
      rcases toGltfStep_views vc st g w hw with hmem | hal
      · exact h w hmem
      · exact hal

/-- Claim C7 witness: two meshes with the same source material yield one
deduplicated material entry referenced by both primitives. -/
theorem addMaterial_first_index_or_append_witness :
    (ToGltfDoc true ⟨[sampleGeometry, sampleGeometry]⟩).materials.length = 1 ∧
    (ToGltfDoc true ⟨[sampleGeometry, sampleGeometry]⟩).meshes.headI.primitives.map
      MeshPrimitive.material = [0, 0] :=
  addMaterial_first_index_or_append.2.2 true sampleGeometry sampleGeometry rfl rfl rfl

lemma serializeBinaryGlTF_split (outJSON bufferBytes : List ℕ) :
    SerializeBinaryGlTF outJSON bufferBytes
      = [103, 108, 84, 70] ++ le32 2
          ++ le32 (28 + (outJSON.length + pad4 outJSON.length)
              + (bufferBytes.length + pad4 bufferBytes.length))
          ++ le32 (outJSON.length + pad4 outJSON.length) ++ [74, 83, 79, 78]
          ++ (outJSON ++ List.replicate (pad4 outJSON.length) 32)
          ++ le32 (bufferBytes.length + pad4 bufferBytes.length) ++ [66, 73, 78, 0]
          ++ (bufferBytes ++ List.replicate (pad4 bufferBytes.length) 0) := by
  simp only [SerializeBinaryGlTF]
  have h : 4 + 4 + 4 + 4 + 4 + (outJSON.length + pad4 outJSON.length) + 4 + 4
      + (bufferBytes.length + pad4 bufferBytes.length)
      = 28 + (outJSON.length + pad4 outJSON.length)
        + (bufferBytes.length + pad4 bufferBytes.length) := by omega
  rw [h]
  simp [List.append_assoc]

/-- Claim C8: every BufferView the assembler creates starts at a byte
offset that is a multiple of 4 and ends 4-byte aligned (so the packed
buffer is 4-byte aligned after each append), the document buffer length
is a multiple of 4, and the two chunk lengths the binary serializer
declares are multiples of 4 after padding. -/
theorem document_alignment_invariant (vc : Bool) (model : Model)
    (outJSON bufferBytes : List ℕ) :
    (∀ view ∈ (ToGltfDoc vc model).bufferViews,
      view.byteOffset % 4 = 0 ∧ (view.byteOffset + view.byteLength) % 4 = 0) ∧
    (ToGltfDoc vc model).buffers.headI.byteLength % 4 = 0 ∧
    (outJSON.length + pad4 outJSON.length) % 4 = 0 ∧
    (bufferBytes.length + pad4 bufferBytes.length) % 4 = 0 ∧
    SerializeBinaryGlTF outJSON bufferBytes
      = [103, 108, 84, 70] ++ le32 2
          ++ le32 (28 + (outJSON.length + pad4 outJSON.length)
              + (bufferBytes.length + pad4 bufferBytes.length))
          ++ le32 (outJSON.length + pad4 outJSON.length) ++ [74, 83, 79, 78]
          ++ (outJSON ++ List.replicate (pad4 outJSON.length) 32)
          ++ le32 (bufferBytes.length + pad4 bufferBytes.length) ++ [66, 73, 78, 0]
          ++ (bufferBytes ++ List.replicate (pad4 bufferBytes.length) 0) := by
  refine ⟨?_, ?_, ?_, ?_, serializeBinaryGlTF_split _ _⟩
  · intro view hv
    refine toGltfFold_views vc model.meshes ⟨⟨[], [], []⟩, [], []⟩ ?_ view ?_
    · intro w hw
      simp at hw
    · simpa [ToGltfDoc] using hv
  · simp [ToGltfDoc, bufLen]
  · simp only [pad4]; omega
  · simp only [pad4]; omega

/-- Claim C8 witness: the alignment facts evaluated on a concrete
document and byte streams. -/
theorem document_alignment_invariant_witness :
    (((ToGltfDoc true sampleModel).bufferViews.getD 1 default).byteOffset % 4 = 0 ∧
      (((ToGltfDoc true sampleModel).bufferViews.getD 1 default).byteOffset
        + ((ToGltfDoc true sampleModel).bufferViews.getD 1 default).byteLength) % 4 = 0) ∧
    (ToGltfDoc true sampleModel).buffers.headI.byteLength % 4 = 0 ∧
    (([5, 6, 7] : List ℕ).length + pad4 ([5, 6, 7] : List ℕ).length) % 4 = 0 := by
  have h := document_alignment_invariant true sampleModel [5, 6, 7] [9]
  exact ⟨h.1 _ (by decide), h.2.1, h.2.2.1⟩

lemma mem_pbrJsonKeys (pbr : MaterialPbrMetallicRoughness) (s : String)
    (h : s ∈ pbrJsonKeys pbr) :
    s = "baseColorTexture" ∨ s = "metallicFactor" ∨ s = "roughnessFactor" := by
  unfold pbrJsonKeys at h
  rcases htex : pbr.baseColorTexture with _ | k <;> rw [htex] at h <;>
    by_cases hr : pbr.roughnessFactor = 0 <;> simp [hr] at h <;> tauto

lemma toGltfStep_materials_mem (vc : Bool) (st : DocState) (mesh : Geometry) :
    ∀ mat ∈ (toGltfStep vc st mesh).materials,
      mat ∈ st.materials ∨ mat.pbrMetallicRoughness.baseColorFactor = [1, 1, 1, 1] := by
  intro mat hmat
  cases vc <;> simp only [toGltfStep, addMaterial] at hmat <;> split at hmat
  · exact Or.inl hmat
  · rcases List.mem_append.mp hmat with h | h
    · exact Or.inl h
    · right
      rw [List.mem_singleton.mp h]
  · exact Or.inl hmat
  · rcases List.mem_append.mp hmat with h | h
    · exact Or.inl h
    · right
      rw [List.mem_singleton.mp h]

lemma toGltfFold_materials (vc : Bool) : ∀ (l : List Geometry) (st : DocState),
    (∀ mat ∈ st.materials, mat.pbrMetallicRoughness.baseColorFactor = [1, 1, 1, 1]) →
    ∀ mat ∈ (l.foldl (toGltfStep vc) st).materials,
      mat.pbrMetallicRoughness.baseColorFactor = [1, 1, 1, 1] := by
  intro l
  induction l with
  | nil => intro st h mat hm; exact h mat hm
  | cons g rest ih =>
      intro st h mat hm
      refine ih (toGltfStep vc st g) ?_ mat hm
      intro w hw
      rcases toGltfStep_materials_mem vc st g w hw with hmem | hfac
      · exact h w hmem
      · exact hfac

/-- Claim C9: no material of any produced document ever serializes a
baseColorFactor key — the field is excluded from the JSON encoding by
its `json:"-"` tag — even though the assembler sets it to [1, 1, 1, 1]
on every material it emits (and the deduplicator compares it). -/
theorem baseColorFactor_set_but_never_serialized (vc : Bool) (model : Model) :
    ∀ mat ∈ (ToGltfDoc vc model).materials,
      mat.pbrMetallicRoughness.baseColorFactor = [1, 1, 1, 1] ∧
      "baseColorFactor" ∉ pbrJsonKeys mat.pbrMetallicRoughness := by
  intro mat hmat
  constructor
  · refine toGltfFold_materials vc model.meshes ⟨⟨[], [], []⟩, [], []⟩ ?_ mat ?_
    · intro w hw
      simp at hw
    · simpa [ToGltfDoc] using hmat
  · intro hmem
    rcases mem_pbrJsonKeys _ _ hmem with h | h | h <;> exact absurd h (by decide)

/-- Claim C9 witness: evaluated on a concrete document's material. -/
theorem baseColorFactor_set_but_never_serialized_witness :
    ((ToGltfDoc true sampleModel).materials.getD 0
        default).pbrMetallicRoughness.baseColorFactor = [1, 1, 1, 1] ∧
    "baseColorFactor" ∉ pbrJsonKeys ((ToGltfDoc true sampleModel).materials.getD 0
        default).pbrMetallicRoughness := by
  have hlen : 0 < (ToGltfDoc true sampleModel).materials.length := by decide
  have hmem : (ToGltfDoc true sampleModel).materials.getD 0 default
      ∈ (ToGltfDoc true sampleModel).materials := by
    rw [List.getD_eq_getElem _ _ hlen]
    exact List.getElem_mem hlen
  exact baseColorFactor_set_but_never_serialized true sampleModel _ hmem

lemma toInt32_of_lt (z : ℤ) (h0 : 0 ≤ z) (h1 : z < 2 ^ 31) : toInt32 z = z := by
  unfold toInt32
  omega

lemma vcFold_fst : ∀ (l : List Geometry) (fv : List Vertex) (ff : List Triangle),
    (l.foldl vcStep (fv, ff)).1 = fv ++ l.flatMap (fun g => g.vertices.map remapColorVertex) := by
  intro l
  induction l with
  | nil => intro fv ff; simp
  | cons g rest ih =>
      intro fv ff
      show (rest.foldl vcStep (vcStep (fv, ff) g)).1 = _
      rw [show vcStep (fv, ff) g = (fv ++ g.vertices.map remapColorVertex,
        ff ++ g.faces.map (shiftTriangle (toInt32 (fv.length : ℤ)))) from rfl, ih]
      simp

lemma vcFold_snd : ∀ (l : List Geometry) (fv : List Vertex) (ff : List Triangle),
    (l.foldl vcStep (fv, ff)).2 = ff ++ facesJoin l fv.length := by
  intro l
  induction l with
  | nil => intro fv ff; simp [facesJoin]
  | cons g rest ih =>
      intro fv ff
      show (rest.foldl vcStep (vcStep (fv, ff) g)).2 = _
      rw [show vcStep (fv, ff) g = (fv ++ g.vertices.map remapColorVertex,
        ff ++ g.faces.map (shiftTriangle (toInt32 (fv.length : ℤ)))) from rfl, ih]
      simp [facesJoin]

lemma atlasFold_fst : ∀ (l : List Geometry) (n : ℕ) (fv : List Vertex) (ff : List Triangle)
    (img : Atlas),
    ((l.enumFrom n).foldl atlasStep (fv, ff, img)).1
      = fv ++ (l.enumFrom n).flatMap (fun p => p.2.vertices.map (fun vtx =>
          { vtx with uv := uvCenter (p.1 % 32) (p.1 / 32) })) := by
  intro l
  induction l with
  | nil => intro n fv ff img; simp [List.enumFrom]
  | cons g rest ih =>
      intro n fv ff img
      show ((rest.enumFrom (n + 1)).foldl atlasStep (atlasStep (fv, ff, img) (n, g))).1 = _
      rw [show atlasStep (fv, ff, img) (n, g)
        = (fv ++ g.vertices.map (fun vtx => { vtx with uv := uvCenter (n % 32) (n / 32) }),
           ff ++ g.faces.map (shiftTriangle (toInt32 (fv.length : ℤ))),
           setPixel img (n % 32) (n / 32) (atlasPixel g.material)) from rfl, ih]
      simp [List.enumFrom]

lemma atlasFold_snd : ∀ (l : List Geometry) (n : ℕ) (fv : List Vertex) (ff : List Triangle)
    (img : Atlas),
    ((l.enumFrom n).foldl atlasStep (fv, ff, img)).2.1 = ff ++ facesJoin l fv.length := by
  intro l
  induction l with
  | nil => intro n fv ff img; simp [List.enumFrom, facesJoin]
  | cons g rest ih =>
      intro n fv ff img
      show ((rest.enumFrom (n + 1)).foldl atlasStep (atlasStep (fv, ff, img) (n, g))).2.1 = _
      rw [show atlasStep (fv, ff, img) (n, g)
        = (fv ++ g.vertices.map (fun vtx => { vtx with uv := uvCenter (n % 32) (n / 32) }),
           ff ++ g.faces.map (shiftTriangle (toInt32 (fv.length : ℤ))),
           setPixel img (n % 32) (n / 32) (atlasPixel g.material)) from rfl, ih]
      simp [facesJoin]

lemma atlasFold_img : ∀ (l : List Geometry) (n : ℕ) (fv : List Vertex) (ff : List Triangle)
    (img : Atlas),
    ((l.enumFrom n).foldl atlasStep (fv, ff, img)).2.2 = atlasWrites l n img := by
  intro l
  induction l with
  | nil => intro n fv ff img; simp [List.enumFrom, atlasWrites]
  | cons g rest ih =>
      intro n fv ff img
      show ((rest.enumFrom (n + 1)).foldl atlasStep (atlasStep (fv, ff, img) (n, g))).2.2 = _
      rw [show atlasStep (fv, ff, img) (n, g)
        = (fv ++ g.vertices.map (fun vtx => { vtx with uv := uvCenter (n % 32) (n / 32) }),
           ff ++ g.faces.map (shiftTriangle (toInt32 (fv.length : ℤ))),
           setPixel img (n % 32) (n / 32) (atlasPixel g.material)) from rfl, ih]
      rfl

lemma facesJoin_length : ∀ (l : List Geometry) (n : ℕ), (facesJoin l n).length = totalFaces l := by
  intro l
  induction l with
  | nil => intro n; simp [facesJoin, totalFaces]
  | cons g rest ih => intro n; simp [facesJoin, totalFaces, ih, List.map_cons]

lemma vcVerts_length (l : List Geometry) :
    (l.flatMap (fun g => g.vertices.map remapColorVertex)).length = totalVerts l := by
  simp [List.length_flatMap, totalVerts, Function.comp_def]

lemma atlasVerts_length : ∀ (l : List Geometry) (n : ℕ),
    ((l.enumFrom n).flatMap (fun p => p.2.vertices.map (fun vtx =>
        { vtx with uv := uvCenter (p.1 % 32) (p.1 / 32) }))).length = totalVerts l := by
  intro l
  induction l with
  | nil => intro n; simp [List.enumFrom, totalVerts]
  | cons g rest ih => intro n; simp [List.enumFrom, totalVerts, ih, List.map_cons]

lemma facesJoin_getD : ∀ (l : List Geometry) (n k t : ℕ), k < l.length →
    t < (l.getD k default).faces.length →
    (facesJoin l n).getD (facesBefore l k + t) default
      = shiftTriangle (toInt32 ((n : ℕ) + vertsBefore l k)) ((l.getD k default).faces.getD t default) := by
  intro l
  induction l with
  | nil => intro n k t hk; simp at hk
  | cons g rest ih =>
      intro n k t hk ht
      cases k with
      | zero =>
          simp only [List.getD_cons_zero] at ht ⊢
          simp only [facesJoin, facesBefore, vertsBefore, List.take_zero, List.map_nil,
            List.sum_nil, Nat.zero_add, Nat.add_zero]
          rw [List.getD_append _ _ _ _ (by simpa using ht)]
          exact getD_map_of_lt _ _ _ _ default ht
      | succ k =>
          simp only [List.getD_cons_succ] at ht ⊢
          have hk : k < rest.length := by simpa using hk
          have hfb : facesBefore (g :: rest) (k + 1) = g.faces.length + facesBefore rest k := by
            simp [facesBefore, List.take_succ_cons]
          have hvb : vertsBefore (g :: rest) (k + 1) = g.vertices.length + vertsBefore rest k := by
            simp [vertsBefore, List.take_succ_cons]
          rw [hfb, hvb]
          simp only [facesJoin]
          rw [Nat.add_assoc, List.getD_append_right _ _ _ _ (by simp)]
          have harith : g.faces.length + (facesBefore rest k + t)
              - (g.faces.map (shiftTriangle (toInt32 (n : ℕ)))).length
              = facesBefore rest k + t := by simp
          rw [harith, ih (n + g.vertices.length) k t hk ht]
          congr 2
          push_cast
          ring

lemma atlasVerts_getD : ∀ (l : List Geometry) (n k t : ℕ), k < l.length →
    t < (l.getD k default).vertices.length →
    ((l.enumFrom n).flatMap (fun p => p.2.vertices.map (fun vtx =>
        { vtx with uv := uvCenter (p.1 % 32) (p.1 / 32) }))).getD (vertsBefore l k + t) default
      = { (l.getD k default).vertices.getD t default with
          uv := uvCenter ((n + k) % 32) ((n + k) / 32) } := by
  intro l
  induction l with
  | nil => intro n k t hk; simp at hk
  | cons g rest ih =>
      intro n k t hk ht
      cases k with
      | zero =>
          simp only [List.getD_cons_zero] at ht ⊢
          simp only [List.enumFrom, List.flatMap_cons, vertsBefore, List.take_zero,
            List.map_nil, List.sum_nil, Nat.zero_add, Nat.add_zero]
          rw [List.getD_append _ _ _ _ (by simpa using ht)]
          exact getD_map_of_lt _ _ _ _ default ht
      | succ k =>
          simp only [List.getD_cons_succ] at ht ⊢
          have hk : k < rest.length := by simpa using hk
          have hvb : vertsBefore (g :: rest) (k + 1) = g.vertices.length + vertsBefore rest k := by
            simp [vertsBefore, List.take_succ_cons]
          rw [hvb]
          simp only [List.enumFrom, List.flatMap_cons]
          rw [Nat.add_assoc, List.getD_append_right _ _ _ _ (by simp)]
          have harith : g.vertices.length + (vertsBefore rest k + t)
              - (g.vertices.map (fun vtx =>
                  { vtx with uv := uvCenter (n % 32) (n / 32) })).length
              = vertsBefore rest k + t := by simp
          rw [harith, ih (n + 1) k t hk ht]
          have : n + 1 + k = n + (k + 1) := by omega
          rw [this]

lemma setPixel_ne (img : Atlas) (x y : ℕ) (c : RGBA) (p : ℕ × ℕ) (h : p ≠ (x, y)) :
    setPixel img x y c p = img p := by
  unfold setPixel
  split
  · simp [h]
  · rfl

lemma setPixel_at (img : Atlas) (x y : ℕ) (c : RGBA) (hx : x < 32) (hy : y < 32) :
    setPixel img x y c (x, y) = c := by
  unfold setPixel
  rw [if_pos ⟨hx, hy⟩]
  simp

lemma atlasWrites_untouched : ∀ (l : List Geometry) (n : ℕ) (img : Atlas) (p : ℕ × ℕ),
    (∀ j, n ≤ j → j < n + l.length → (j % 32, j / 32) ≠ p) →
    atlasWrites l n img p = img p := by
  intro l
  induction l with
  | nil => intro n img p _; rfl
  | cons g rest ih =>
      intro n img p h
      show atlasWrites rest (n + 1) (setPixel img (n % 32) (n / 32) (atlasPixel g.material)) p
        = img p
      rw [ih (n + 1) _ p (fun j hj1 hj2 => h j (by omega) (by simp at hj2 ⊢; omega))]
      exact setPixel_ne _ _ _ _ _ (fun hp =>
        h n (Nat.le_refl n) (by simp) (by rw [hp]))

lemma atlasWrites_at : ∀ (l : List Geometry) (i n : ℕ) (img : Atlas),
    n ≤ i → i < n + l.length → i < 1024 →
    atlasWrites l n img (i % 32, i / 32) = atlasPixel ((l.getD (i - n) default).material) := by
  intro l
  induction l with
  | nil => intro i n img h1 h2; simp at h2; omega
  | cons g rest ih =>
      intro i n img h1 h2 h3
      show atlasWrites rest (n + 1) (setPixel img (n % 32) (n / 32) (atlasPixel g.material))
        (i % 32, i / 32) = _
      rcases Nat.eq_or_lt_of_le h1 with heq | hlt
      · subst heq
        rw [atlasWrites_untouched rest (n + 1) _ _ ?_]
        · have h0 : n - n = 0 := by omega
          rw [h0, List.getD_cons_zero]
          exact setPixel_at _ _ _ _ (by omega) (by omega)
        · intro j hj1 hj2 hp
          have hmod : j % 32 = n % 32 := (Prod.mk.injEq _ _ _ _).mp hp |>.1
          have hdiv : j / 32 = n / 32 := (Prod.mk.injEq _ _ _ _).mp hp |>.2
          omega
      · have hsub : i - n = (i - (n + 1)) + 1 := by omega
        rw [ih i (n + 1) _ (by omega) (by simp at h2 ⊢; omega) h3, hsub,
          List.getD_cons_succ]

lemma vertsBefore_le (l : List Geometry) (k : ℕ) : vertsBefore l k ≤ totalVerts l := by
  unfold vertsBefore totalVerts
  conv_rhs => rw [← List.take_append_drop k l]
  rw [List.map_append, List.sum_append]
  exact Nat.le_add_right _ _

lemma shiftTriangle_eq_plusOffset (m total : ℕ) (tri : Triangle)
    (h : triIndicesOk tri total) (hm : m ≤ total) :
    shiftTriangle (toInt32 (m : ℤ)) tri = plusOffset m tri := by
  obtain ⟨h0, h1, h2, h3, h4, h5⟩ := h
  have hmz : ((m : ℤ) : ℤ) < 2 ^ 31 := by
    have : (m : ℤ) ≤ (total : ℤ) := by exact_mod_cast hm
    omega
  rw [toInt32_of_lt (m : ℤ) (by positivity) hmz]
  unfold shiftTriangle plusOffset
  have ht : (total : ℤ) ≥ (m : ℤ) := by exact_mod_cast hm
  rw [toInt32_of_lt _ (by omega) (by omega), toInt32_of_lt _ (by omega) (by omega),
    toInt32_of_lt _ (by omega) (by omega)]

lemma getD_mem_of_lt {α : Type} [Inhabited α] (l : List α) (k : ℕ) (hk : k < l.length) :
    l.getD k default ∈ l := by
  rw [List.getD_eq_getElem _ _ hk]
  exact List.getElem_mem hk

/-- Claim C2: for every input Model and either color mode, the
consolidated output of optimizeModel contains exactly one combined mesh
whose triangle count is the sum of the source triangle counts and whose
vertex count is the sum of the source vertex counts, and (provided the
totals stay inside the int32 range, so the int32 additions do not wrap)
each appended triangle's three indices equal the source triangle's
indices plus the running vertex count at the time its source mesh was
processed. -/
theorem optimizeModel_counts_and_offsets (vc : Bool) (model : Model)
    (hidx : ∀ g ∈ model.meshes, ∀ t ∈ g.faces, triIndicesOk t (totalVerts model.meshes)) :
    (optimizeModel vc model).1.meshes.length = 1 ∧
    (optimizeModel vc model).1.meshes.headI.vertices.length = totalVerts model.meshes ∧
    (optimizeModel vc model).1.meshes.headI.faces.length = totalFaces model.meshes ∧
    ∀ k, k < model.meshes.length → ∀ t, t < (model.meshes.getD k default).faces.length →
      (optimizeModel vc model).1.meshes.headI.faces.getD
          (facesBefore model.meshes k + t) default
        = plusOffset (vertsBefore model.meshes k)
            ((model.meshes.getD k default).faces.getD t default) := by
  have hfaces : ∀ k, k < model.meshes.length →
      ∀ t, t < (model.meshes.getD k default).faces.length →
      (facesJoin model.meshes 0).getD (facesBefore model.meshes k + t) default
        = plusOffset (vertsBefore model.meshes k)
            ((model.meshes.getD k default).faces.getD t default) := by
    intro k hk t ht
    rw [facesJoin_getD model.meshes 0 k t hk ht]
    have hmem : (model.meshes.getD k default) ∈ model.meshes := getD_mem_of_lt _ k hk
    have htri : (model.meshes.getD k default).faces.getD t default
        ∈ (model.meshes.getD k default).faces := getD_mem_of_lt _ t ht
    have hok := hidx _ hmem _ htri
    simp only [Nat.cast_zero, zero_add]
    exact shiftTriangle_eq_plusOffset _ _ _ hok (vertsBefore_le _ _)
  cases vc with
  | true =>
      refine ⟨rfl, ?_, ?_, ?_⟩
      · show (model.meshes.foldl vcStep ([], [])).1.length = _
        rw [vcFold_fst]
        simpa using vcVerts_length model.meshes
      · show (model.meshes.foldl vcStep ([], [])).2.length = _
        rw [vcFold_snd]
        simpa using facesJoin_length model.meshes 0
      · intro k hk t ht
        show (model.meshes.foldl vcStep ([], [])).2.getD _ default = _
        rw [vcFold_snd]
        simpa using hfaces k hk t ht
  | false =>
      refine ⟨rfl, ?_, ?_, ?_⟩
      · show ((model.meshes.enumFrom 0).foldl atlasStep ([], [], blankAtlas)).1.length = _
        rw [atlasFold_fst]
        simpa using atlasVerts_length model.meshes 0
      · show ((model.meshes.enumFrom 0).foldl atlasStep ([], [], blankAtlas)).2.1.length = _
        rw [atlasFold_snd]
        simpa using facesJoin_length model.meshes 0
      · intro k hk t ht
        show ((model.meshes.enumFrom 0).foldl atlasStep ([], [], blankAtlas)).2.1.getD _ default
          = _
        rw [atlasFold_snd]
        simpa using hfaces k hk t ht

/-- Claim C2 witness: counts and index offsets evaluated on a concrete
two-mesh model. -/
theorem optimizeModel_counts_and_offsets_witness :
    (optimizeModel true ⟨[sampleGeometry, sampleGeometry]⟩).1.meshes.length = 1 ∧
    (optimizeModel true ⟨[sampleGeometry, sampleGeometry]⟩).1.meshes.headI.faces.getD
        (facesBefore [sampleGeometry, sampleGeometry] 1 + 0) default
      = plusOffset (vertsBefore [sampleGeometry, sampleGeometry] 1)
          ((([sampleGeometry, sampleGeometry] : List Geometry).getD 1
            default).faces.getD 0 default) := by
  have h := optimizeModel_counts_and_offsets true ⟨[sampleGeometry, sampleGeometry]⟩ (by decide)
  exact ⟨h.1, h.2.2.2 1 (by decide) 0 (by decide)⟩

/-- Claim C5: in texture-atlas mode, for a Model with fewer than 1024
meshes, the i-th source mesh contributes exactly one pixel of the 32×32
atlas at grid position (i % 32, i / 32) — its R/G/B channels the
diffuse color remapped from [0,1] to [0.04,0.85] and scaled to a byte,
its alpha the opacity scaled to [0,255] — every other pixel position no
mesh maps to keeps the default value, and every vertex of that source
mesh is assigned the UV coordinate at the pixel center
(x/32 + 0.5/32, y/32 + 0.5/32). -/
theorem optimizeModel_atlas_pixel_and_uv (model : Model) (i : ℕ)
    (hi : i < model.meshes.length) (hcount : model.meshes.length < 1024) :
    (optimizeModel false model).2 (i % 32, i / 32)
        = atlasPixel ((model.meshes.getD i default).material) ∧
    (∀ x y : ℕ, (∀ j, j < model.meshes.length → (j % 32, j / 32) ≠ (x, y)) →
      (optimizeModel false model).2 (x, y) = ⟨0, 0, 0, 0⟩) ∧
    (∀ t, t < (model.meshes.getD i default).vertices.length →
      (optimizeModel false model).1.meshes.headI.vertices.getD
          (vertsBefore model.meshes i + t) default
        = { (model.meshes.getD i default).vertices.getD t default with
            uv := uvCenter (i % 32) (i / 32) }) := by
  refine ⟨?_, ?_, ?_⟩
  · show ((model.meshes.enumFrom 0).foldl atlasStep ([], [], blankAtlas)).2.2 _ = _
    rw [atlasFold_img]
    have h := atlasWrites_at model.meshes i 0 blankAtlas (Nat.zero_le i)
      (by simpa using hi) (by omega)
    simpa using h
  · intro x y hxy
    show ((model.meshes.enumFrom 0).foldl atlasStep ([], [], blankAtlas)).2.2 _ = _
    rw [atlasFold_img]
    rw [atlasWrites_untouched model.meshes 0 blankAtlas (x, y)
      (fun j _ hj2 => hxy j (by simpa using hj2))]
    rfl
  · intro t ht
    show ((model.meshes.enumFrom 0).foldl atlasStep ([], [], blankAtlas)).1.getD _ default = _
    rw [atlasFold_fst]
    have h := atlasVerts_getD model.meshes 0 i t hi ht
    simpa using h

/-- Claim C5 witness: a two-mesh model in texture-atlas mode fills
pixels (0,0) and (1,0) and leaves pixel (5,3) blank, and mesh 1's first
vertex lands at the center of pixel (1,0). -/
theorem optimizeModel_atlas_pixel_and_uv_witness :
    (optimizeModel false ⟨[sampleGeometry, sampleGeometry]⟩).2 (1 % 32, 1 / 32)
        = atlasPixel ((([sampleGeometry, sampleGeometry] : List Geometry).getD 1
            default).material) ∧
    (optimizeModel false ⟨[sampleGeometry, sampleGeometry]⟩).2 (5, 3) = ⟨0, 0, 0, 0⟩ ∧
    (optimizeModel false ⟨[sampleGeometry, sampleGeometry]⟩).1.meshes.headI.vertices.getD
        (vertsBefore [sampleGeometry, sampleGeometry] 1 + 0) default
      = { (([sampleGeometry, sampleGeometry] : List Geometry).getD 1
          default).vertices.getD 0 default with uv := uvCenter (1 % 32) (1 / 32) } := by
  have h := optimizeModel_atlas_pixel_and_uv ⟨[sampleGeometry, sampleGeometry]⟩ 1
    (by decide) (by decide)
  exact ⟨h.1, h.2.1 5 3 (by decide), h.2.2 0 (by decide)⟩

lemma areMaterialsEqual_iff_matKey6 (a b : GltfMaterial) :
    areMaterialsEqual a b = true ↔ matKey6 a = matKey6 b := by
  unfold areMaterialsEqual matKey6
  simp only [Bool.and_eq_true, decide_eq_true_eq, Prod.mk.injEq]
  tauto

lemma findMaterial_some_spec : ∀ (mats : List GltfMaterial) (mat : GltfMaterial) (i : ℕ),
    findMaterial mat mats = some i →
    i < mats.length ∧ areMaterialsEqual (mats.getD i default) mat = true := by
  intro mats
  induction mats with
  | nil => intro mat i h; simp [findMaterial] at h
  | cons m rest ih =>
      intro mat i h
      by_cases hm : areMaterialsEqual m mat
      · simp [findMaterial, hm] at h
        subst h
        simpa using hm
      · simp [findMaterial, hm] at h
        rcases h with ⟨k, hk, hki⟩
        rcases ih mat k hk with ⟨hlen, heq⟩
        subst hki
        exact ⟨by simpa using Nat.succ_lt_succ hlen, by simpa using heq⟩

lemma findMaterial_none_spec : ∀ (mats : List GltfMaterial) (mat : GltfMaterial),
    findMaterial mat mats = none →
    ∀ j, j < mats.length → areMaterialsEqual (mats.getD j default) mat = false := by
  intro mats
  induction mats with
  | nil => intro mat _ j hj; simp at hj
  | cons m rest ih =>
      intro mat h j hj
      by_cases hm : areMaterialsEqual m mat
      · simp [findMaterial, hm] at h
      · simp [findMaterial, hm] at h
        cases j with
        | zero => simpa using Bool.eq_false_iff.mpr hm
        | succ k => exact ih mat h k (by simpa using hj)

lemma getD_concat_self {α : Type} (xs : List α) (a d : α) : (xs ++ [a]).getD xs.length d = a := by
  rw [List.getD_append_right _ _ _ _ (Nat.le_refl _)]
  simp

lemma dedupState_inv (keys : List GltfMaterial) :
    (dedupState keys).2.length = keys.length ∧
    (∀ p q, p < q → q < (dedupState keys).1.length →
      areMaterialsEqual ((dedupState keys).1.getD p default)
        ((dedupState keys).1.getD q default) = false) ∧
    (∀ k, k < keys.length →
      (dedupState keys).2.getD k 0 < (dedupState keys).1.length ∧
      areMaterialsEqual ((dedupState keys).1.getD ((dedupState keys).2.getD k 0) default)
        (keys.getD k default) = true) := by
  induction keys using List.reverseRecOn with
  | nil =>
      refine ⟨rfl, ?_, ?_⟩
      · intro p q _ hq; simp [dedupState] at hq
      · intro k hk; simp at hk
  | append_singleton l key ih =>
      obtain ⟨ihlen, ihpair, ihassign⟩ := ih
      have hfold : dedupState (l ++ [key]) = matStep (dedupState l) key := by
        simp [dedupState, List.foldl_append]
      rcases hDS : dedupState l with ⟨mats, assigns⟩
      rw [hDS] at ihlen ihpair ihassign hfold
      dsimp only at ihlen ihpair ihassign
      rcases hfind : findMaterial key mats with _ | i
      · -- key not found: material appended, index is the old length
        have hstep : matStep (mats, assigns) key
            = (mats ++ [key], assigns ++ [mats.length]) := by
          simp [matStep, addMaterial, hfind]
        rw [hfold, hstep]
        dsimp only
        have hnone := findMaterial_none_spec _ _ hfind
        refine ⟨by simpa using ihlen, ?_, ?_⟩
        · intro p q hpq hq
          simp only [List.length_append, List.length_singleton] at hq
          rcases Nat.lt_succ_iff_lt_or_eq.mp hq with hq | hq
          · rw [List.getD_append _ _ _ _ (by omega), List.getD_append _ _ _ _ hq]
            exact ihpair p q hpq hq
          · subst hq
            rw [List.getD_append _ _ _ _ hpq, getD_concat_self]
            exact hnone p hpq
        · intro k hk
          simp only [List.length_append, List.length_singleton] at hk
          rcases Nat.lt_succ_iff_lt_or_eq.mp hk with hk | hk
          · obtain ⟨ha1, ha2⟩ := ihassign k hk
            rw [List.getD_append _ _ _ _ (by omega), List.getD_append _ _ _ _ ha1,
              List.getD_append _ _ _ _ hk]
            exact ⟨by simp only [List.length_append, List.length_singleton]; omega, ha2⟩
          · subst hk
            have e1 : (assigns ++ [mats.length]).getD l.length 0 = mats.length := by
              rw [← ihlen]; exact getD_concat_self _ _ _
            have e2 : (l ++ [key]).getD l.length default = key := getD_concat_self _ _ _
            have e3 : (mats ++ [key]).getD mats.length default = key := getD_concat_self _ _ _
            rw [e1, e2, e3]
            exact ⟨by simp, (areMaterialsEqual_iff_matKey6 _ _).mpr rfl⟩
      · -- key found at index i: list unchanged, index recorded
        have hstep : matStep (mats, assigns) key = (mats, assigns ++ [i]) := by
          simp [matStep, addMaterial, hfind]
        rw [hfold, hstep]
        dsimp only
        obtain ⟨hilen, hieq⟩ := findMaterial_some_spec _ _ _ hfind
        refine ⟨by simpa using ihlen, ihpair, ?_⟩
        intro k hk
        simp only [List.length_append, List.length_singleton] at hk
        rcases Nat.lt_succ_iff_lt_or_eq.mp hk with hk | hk
        · obtain ⟨ha1, ha2⟩ := ihassign k hk
          rw [List.getD_append _ _ _ _ (by omega), List.getD_append _ _ _ _ hk]
          exact ⟨ha1, ha2⟩
        · subst hk
          have e1 : (assigns ++ [i]).getD l.length 0 = i := by
            rw [← ihlen]; exact getD_concat_self _ _ _
          have e2 : (l ++ [key]).getD l.length default = key := getD_concat_self _ _ _
          rw [e1, e2]
          exact ⟨hilen, hieq⟩


lemma toGltfStep64_materials_eq (vc : Bool) (st : DocState) (mesh : Geometry) :
    (toGltfStep64 vc st mesh).materials
      = (addMaterial (meshKey64 vc mesh.material) st.materials).2 := by
  cases vc <;> rfl

lemma toGltfStep64_assigns_eq (vc : Bool) (st : DocState) (mesh : Geometry) :
    (toGltfStep64 vc st mesh).assocs.map MeshAssoc.meshMaterialIndex
      = st.assocs.map MeshAssoc.meshMaterialIndex
        ++ [(addMaterial (meshKey64 vc mesh.material) st.materials).1] := by
  cases vc <;> simp [toGltfStep64, meshKey64, gltfMaterial64]

lemma toGltfFold64_proj (vc : Bool) : ∀ (l : List Geometry) (st : DocState),
    ((l.foldl (toGltfStep64 vc) st).materials,
      (l.foldl (toGltfStep64 vc) st).assocs.map MeshAssoc.meshMaterialIndex)
    = (l.map (fun g => meshKey64 vc g.material)).foldl matStep
        (st.materials, st.assocs.map MeshAssoc.meshMaterialIndex) := by
  intro l
  induction l with
  | nil => intro st; rfl
  | cons g rest ih =>
      intro st
      show ((rest.foldl (toGltfStep64 vc) (toGltfStep64 vc st g)).materials, _) = _
      rw [List.map_cons, List.foldl_cons, ih (toGltfStep64 vc st g),
        toGltfStep64_materials_eq, toGltfStep64_assigns_eq]
      rfl

lemma meshKey64_matKey6_iff (vc1 vc2 : Bool) (m1 m2 : Material) :
    matKey6 (meshKey64 vc1 m1) = matKey6 (meshKey64 vc2 m2)
      ↔ roughness64 m1.specularPower = roughness64 m2.specularPower := by
  unfold matKey6 meshKey64 gltfMaterial64
  simp [Prod.mk.injEq]

set_option maxRecDepth 100000 in
lemma roughness64_cexA : roughness64 ((2 ^ 50 : ℚ)⁻¹) = 1 := by with_unfolding_all decide

set_option maxRecDepth 100000 in
lemma roughness64_cexB : roughness64 ((2 ^ 60 : ℚ)⁻¹) = 1 := by with_unfolding_all decide

/-- Claim C10 counterexample: two meshes with the distinct specular
powers 2^-50 and 2^-60 receive the same material index, because the
float64 computation `1 - sp/128` rounds both roughness factors to
exactly 1.0, so the equality check matches the two derived materials. -/
theorem material_index_shared_despite_distinct_specularPower :
    ((ToGltfDoc64 true ⟨[cexGeometryA, cexGeometryB]⟩).meshes.headI.primitives.getD 0
        default).material
      = ((ToGltfDoc64 true ⟨[cexGeometryA, cexGeometryB]⟩).meshes.headI.primitives.getD 1
        default).material
    ∧ cexGeometryA.material.specularPower ≠ cexGeometryB.material.specularPower := by
  constructor
  · simp [ToGltfDoc64, toGltfStep64, gltfMaterial64, addMaterial, findMaterial,
      areMaterialsEqual, cexGeometryA, cexGeometryB, cexMaterialA, cexMaterialB,
      roughness64_cexA, roughness64_cexB]
  · show ((2 ^ 50 : ℚ)⁻¹) ≠ ((2 ^ 60 : ℚ)⁻¹)
    norm_num

/-- Claim C10 (amended): two meshes passed to the assembler receive the
same material index exactly when their float64-computed roughness
factors `1 - specularPower/128` are equal (the base color factor is
overwritten with [1, 1, 1, 1], metallic is always 0, and the equality
check ignores alpha mode, so differing diffuse color or opacity alone
never produce separate entries); equal specular power always yields a
shared entry, but distinct specular powers whose roughness rounds to
the same float64 value share one as well. -/
theorem material_index_iff_equal_roughness64 (vc : Bool) (model : Model) (i j : ℕ)
    (hi : i < model.meshes.length) (hj : j < model.meshes.length) :
    ((ToGltfDoc64 vc model).meshes.headI.primitives.getD i default).material
        = ((ToGltfDoc64 vc model).meshes.headI.primitives.getD j default).material
      ↔ roughness64 (model.meshes.getD i default).material.specularPower
          = roughness64 (model.meshes.getD j default).material.specularPower := by
  have hkeys : (model.meshes.map (fun g => meshKey64 vc g.material)).length
      = model.meshes.length := by simp
  have hproj := toGltfFold64_proj vc model.meshes ⟨⟨[], [], []⟩, [], []⟩
  set keys := model.meshes.map (fun g => meshKey64 vc g.material) with hkeysdef
  have hmats : (model.meshes.foldl (toGltfStep64 vc) ⟨⟨[], [], []⟩, [], []⟩).materials
      = (dedupState keys).1 := congrArg Prod.fst hproj
  have hasg : (model.meshes.foldl (toGltfStep64 vc) ⟨⟨[], [], []⟩, [], []⟩).assocs.map
      MeshAssoc.meshMaterialIndex = (dedupState keys).2 := congrArg Prod.snd hproj
  obtain ⟨hlen, hpair, hassign⟩ := dedupState_inv keys
  have hasglen : (model.meshes.foldl (toGltfStep64 vc) ⟨⟨[], [], []⟩, [], []⟩).assocs.length
      = model.meshes.length := by
    have := congrArg List.length hasg
    simpa [hlen, hkeys] using this
  -- the i-th primitive's material index is the i-th dedup assignment
  have hprim : ∀ k, k < model.meshes.length →
      ((ToGltfDoc64 vc model).meshes.headI.primitives.getD k default).material
        = (dedupState keys).2.getD k 0 := by
    intro k hk
    show ((((model.meshes.foldl (toGltfStep64 vc) ⟨⟨[], [], []⟩, [], []⟩).assocs.map
      (fun assoc =>
        ({ attributes := [("POSITION", assoc.meshVerticesAccessorIndex),
             ("NORMAL", assoc.meshNormalsAccessorIndex)] ++
             (if vc then [("COLOR_0", assoc.meshVertexColorAccessorIndex)]
              else [("TEXCOORD_0", assoc.meshUVAccessorIndex)])
           indices := assoc.meshIndicesAccessorIndex
           material := assoc.meshMaterialIndex : MeshPrimitive }))).getD
      k default)).material = _
    rw [getD_map_of_lt _ _ k default default (by rw [hasglen]; exact hk)]
    show ((model.meshes.foldl (toGltfStep64 vc) ⟨⟨[], [], []⟩, [], []⟩).assocs.getD
      k default).meshMaterialIndex = _
    rw [← hasg, getD_map_of_lt _ _ k 0 default (by rw [hasglen]; exact hk)]
  have hkeyat : ∀ k, k < model.meshes.length →
      keys.getD k default = meshKey64 vc ((model.meshes.getD k default).material) := by
    intro k hk
    rw [hkeysdef, getD_map_of_lt _ _ k default default hk]
  obtain ⟨hai, hai2⟩ := hassign i (by rw [hkeys]; exact hi)
  obtain ⟨haj, haj2⟩ := hassign j (by rw [hkeys]; exact hj)
  rw [hprim i hi, hprim j hj]
  rw [hkeyat i hi] at hai2
  rw [hkeyat j hj] at haj2
  rw [areMaterialsEqual_iff_matKey6] at hai2 haj2
  constructor
  · intro h
    have : matKey6 (meshKey64 vc ((model.meshes.getD i default).material))
        = matKey6 (meshKey64 vc ((model.meshes.getD j default).material)) := by
      rw [← hai2, ← haj2, h]
    exact (meshKey64_matKey6_iff vc vc _ _).mp this
  · intro h
    by_contra hne
    have hkk : matKey6 (meshKey64 vc ((model.meshes.getD i default).material))
        = matKey6 (meshKey64 vc ((model.meshes.getD j default).material)) :=
      (meshKey64_matKey6_iff vc vc _ _).mpr h
    have hmm : matKey6 ((dedupState keys).1.getD ((dedupState keys).2.getD i 0) default)
        = matKey6 ((dedupState keys).1.getD ((dedupState keys).2.getD j 0) default) := by
      rw [hai2, haj2, hkk]
    rcases Nat.lt_or_ge ((dedupState keys).2.getD i 0) ((dedupState keys).2.getD j 0)
      with hlt | hge
    · have hf := hpair _ _ hlt haj
      exact absurd ((areMaterialsEqual_iff_matKey6 _ _).mpr hmm) (by rw [hf]; simp)
    · rcases Nat.lt_or_ge ((dedupState keys).2.getD j 0) ((dedupState keys).2.getD i 0)
        with hlt2 | hge2
      · have hf := hpair _ _ hlt2 hai
        exact absurd ((areMaterialsEqual_iff_matKey6 _ _).mpr hmm.symm) (by rw [hf]; simp)
      · exact hne (by omega)

/-- Claim C10 witness (amended claim): two concrete meshes with equal
specular power — hence equal float64 roughness — share the material
index. -/
theorem material_index_iff_equal_roughness64_witness :
    ((ToGltfDoc64 true ⟨[sampleGeometry, sampleGeometry]⟩).meshes.headI.primitives.getD 0
        default).material
      = ((ToGltfDoc64 true ⟨[sampleGeometry, sampleGeometry]⟩).meshes.headI.primitives.getD 1
        default).material :=
  (material_index_iff_equal_roughness64 true ⟨[sampleGeometry, sampleGeometry]⟩ 0 1
    (by decide) (by decide)).mpr rfl

end GltfGo
